import Mathlib

/-! A verification model of `assert.go` (package `assert`).

The package wraps a `*testing.T` in an `Assert` context with a transient `failed` flag and
offers chainable checks.  The embedding below is state passing:

* a Go value held in an `interface{}` is a `Value` (dynamic type plus data);
* `*testing.T` is the record `T` of what the package can do to it: log a failure
  (`Errorf`, `Error`) or abort the test (`FailNow`, a control effect);
* code supplied by the caller of the package (an `ErrorPredicate`, the `Error()` method of
  an error, the `IsEmpty()` and `IsZero()` methods of a value) either returns or panics
  (`Call`);
* a method that can panic, abort, or call such code returns an `Outcome`, every other
  method returns the updated `Assert`.

The context and its test handle are not nil: they come from `New(t)` with the handle the
test framework passes to the test.

Calls into the Go standard library (`reflect.DeepEqual`, `regexp.MatchString`,
`fmt.Sprintf`) are not code of this package.  `reflect.DeepEqual` is modelled on the value
universe of this file; the regular-expression engine and the `%q` quoting are parameters
(`Stdlib`), with a small reference instance `goStdlib` used to evaluate concrete calls.
-/

namespace assert

/-! ## Go values -/

/-- How a call into code supplied by the caller of the package ends: it returns a result,
or it panics with a value (given by its text). Such code is taken to end the same way each
time it is called on the same argument; a call that never ends is not modelled. -/
inductive Call (α : Type) where
  /-- The call returned `x`. -/
  | returned (x : α) : Call α
  /-- The call panicked with the value `v`. -/
  | panicked (v : String) : Call α
  deriving DecidableEq, Repr

/-- The two capability methods of a dynamic type: `IsEmpty` is `none` when the type has no
method `IsEmpty() bool`, and `some call` when it has one, `call` being how the call of it
on the value ends; likewise `IsZero`. -/
structure Methods where
  IsEmpty : Option (Call Bool)
  IsZero : Option (Call Bool)
  deriving DecidableEq, Repr

/-- No capability method at all. -/
def Methods.none : Methods := { IsEmpty := Option.none, IsZero := Option.none }

/-- A value stored in an `interface{}`: the nil interface, or a dynamic type with its data.
The dynamic type is given by the constructor together with its type tag (`elemType`,
`typ`, `typeName`).  Built-in types carry no methods; pointer types and defined types may.
Addresses give pointers and slices their identity.  Maps, channels, complex numbers and
the other numeric types are outside this universe. -/
inductive Value where
  /-- The nil interface value. -/
  | nil : Value
  /-- A value of type `bool`. -/
  | bool (b : Bool) : Value
  /-- A value of type `int`. -/
  | int (n : Int) : Value
  /-- A value of type `float64`, given by the 64 bits of its IEEE 754 encoding. -/
  | float64 (bits : Nat) : Value
  /-- A value of the built-in type `string`. -/
  | string (s : String) : Value
  /-- A value of the func type `typ`: `code = none` is the nil func. -/
  | func (typ : String) (code : Option Nat) : Value
  /-- The nil pointer of type `*elemType`. -/
  | nilPointer (elemType : String) (methods : Methods) : Value
  /-- A non-nil pointer of type `*elemType`: its address and the value it points to. -/
  | pointer (elemType : String) (methods : Methods) (addr : Nat) (target : Value) : Value
  /-- The nil slice of type `[]elemType`. -/
  | nilSlice (elemType : String) : Value
  /-- A non-nil slice of type `[]elemType`: the address of its first element and its
  elements. -/
  | slice (elemType : String) (addr : Nat) (elems : List Value) : Value
  /-- An array with elements of type `elemType`. -/
  | array (elemType : String) (elems : List Value) : Value
  /-- A value of the defined type `typeName`: a struct with these fields, or a defined
  type over one underlying value. -/
  | defined (typeName : String) (methods : Methods) (fields : List Value) : Value
  deriving Repr

/-- The type assertion `v.(string)`: succeeds only on dynamic type `string`. -/
def Value.asString : Value → Option String
  | .string s => some s
  | _ => Option.none

/-- The method set of the dynamic type of a value, with how a call of each method ends. -/
def Value.methods : Value → Methods
  | .nilPointer _ m => m
  | .pointer _ m _ _ => m
  | .defined _ m _ => m
  | _ => Methods.none

/-- The type assertion `v.(EmptyReporter)` followed by the call `IsEmpty()`. -/
def Value.asEmptyReporter (v : Value) : Option (Call Bool) := v.methods.IsEmpty

/-- The type assertion `v.(ZeroReporter)` followed by the call `IsZero()`. -/
def Value.asZeroReporter (v : Value) : Option (Call Bool) := v.methods.IsZero

end assert

namespace float64

/-- Whether the bits encode a NaN: exponent all ones and a non-zero fraction. -/
def isNaN (bits : Nat) : Bool :=
  (bits / 2 ^ 52) % 2 ^ 11 == 2047 && bits % 2 ^ 52 != 0

/-- Whether the bits encode `+0` or `-0`. -/
def isZero (bits : Nat) : Bool := bits % 2 ^ 63 == 0

/-- The operator `==` on two `float64` values given by their bits: a NaN is equal to
nothing, the two zeros are equal, any other two values are equal when their bits are. -/
def eq (x y : Nat) : Bool :=
  !isNaN x && !isNaN y && ((isZero x && isZero y) || x % 2 ^ 64 == y % 2 ^ 64)

/-- The bits of the value `math.NaN()`. -/
def NaN : Nat := 0x7FF8000000000001

end float64

namespace reflect

open assert

mutual
/-- Model of `reflect.DeepEqual` on `Value`.  Values of distinct dynamic types are never
deeply equal.  Booleans, integers, floats and strings are compared with `==`; funcs are
deeply equal only when both are nil; pointers when they are equal with `==` or point to
deeply equal values; slices when both are nil, or both are not and have the same length
and either the same first element or pairwise deeply equal elements; arrays and structs
when their components are pairwise deeply equal. -/
def DeepEqual : Value → Value → Bool
  | .nil, .nil => true
  | .bool a, .bool b => a == b
  | .int a, .int b => a == b
  | .float64 a, .float64 b => float64.eq a b
  | .string a, .string b => a == b
  | .func t c, .func u d => t == u && c.isNone && d.isNone
  | .nilPointer t _, .nilPointer u _ => t == u
  | .pointer t _ a x, .pointer u _ b y => t == u && (a == b || DeepEqual x y)
  | .nilSlice t, .nilSlice u => t == u
  | .slice t a xs, .slice u b ys =>
    t == u && xs.length == ys.length && (a == b || DeepEqualList xs ys)
  | .array t xs, .array u ys => t == u && DeepEqualList xs ys
  | .defined n _ xs, .defined m _ ys => n == m && DeepEqualList xs ys
  | _, _ => false
/-- Pairwise `DeepEqual` of two component lists of the same length. -/
def DeepEqualList : List Value → List Value → Bool
  | [], [] => true
  | x :: xs, y :: ys => DeepEqual x y && DeepEqualList xs ys
  | _, _ => false
end

end reflect


namespace assert

/-! ## The test handle `*testing.T` -/

/-- A non-nil `error`: how a call of its `Error()` method ends. -/
structure GoError where
  Error : Call String
  deriving DecidableEq, Repr

/-- The constructor `errors.New(text)`. -/
def errors.New (text : String) : GoError := { Error := Call.returned text }

/-- An argument handed to a formatting call. -/
inductive Arg where
  /-- An `interface{}` value. -/
  | value (v : Value) : Arg
  /-- A value of type `string`. -/
  | str (s : String) : Arg
  /-- A value of type `error`; `none` is the nil error. -/
  | err (e : Option GoError) : Arg
  deriving Repr

/-- A formatted text that has not been rendered: the format string and its arguments, as
given to `t.Errorf` or `fmt.Errorf`. -/
structure Formatted where
  format : String
  args : List Arg
  deriving Repr

/-- A non-fatal failure logged on the test handle. -/
inductive Failure where
  /-- The call `t.Errorf(format, args...)`. -/
  | Errorf (msg : Formatted) : Failure
  /-- The call `t.Error(msg)` with one string argument. -/
  | Error (msg : String) : Failure
  deriving Repr

/-- The per-test handle `*testing.T`, as far as this package touches it: the name of the
test it belongs to and the failures logged so far, oldest first. -/
structure T where
  name : String
  failures : List Failure
  deriving Repr

/-- The call `t.Helper()`: marks the caller as a helper for line attribution; it logs
nothing. -/
def T.Helper (t : T) : T := t

/-- The call `t.Errorf(format, args...)`: logs a failure and returns. The formatting
recovers from a panic of a method it calls on an argument, so the call returns. -/
def T.Errorf (t : T) (format : String) (args : List Arg) : T :=
  { t with failures := t.failures ++ [Failure.Errorf { format := format, args := args }] }

/-- The call `t.Error(msg)`: logs a failure and returns. -/
def T.Error (t : T) (msg : String) : T :=
  { t with failures := t.failures ++ [Failure.Error msg] }

/-! ## The package -/

/-- The type `ErrorPredicate func(err error) (string, bool)`, applied to non-nil errors:
how the call of the predicate on an error ends. -/
abbrev ErrorPredicate := GoError → Call (String × Bool)

/-- The nil func value of type `ErrorPredicate`: every call of it panics. -/
def nilPredicate : ErrorPredicate :=
  fun _ => Call.panicked "runtime error: invalid memory address or nil pointer dereference"

/-- The struct `Assert`. -/
structure Assert where
  failed : Bool
  t : T
  deriving Repr

/-- How a call that may not return ends. -/
inductive Outcome where
  /-- The call returned to its caller, leaving the context as given. -/
  | returned (a : Assert) : Outcome
  /-- The call ran `panic(err)`. -/
  | panicked (err : Formatted) (a : Assert) : Outcome
  /-- The call ran `t.FailNow()`, which stops the test and does not return. -/
  | aborted (a : Assert) : Outcome
  /-- Code supplied by the caller, called by the method, panicked with the value `v`. -/
  | callPanicked (v : String) (a : Assert) : Outcome
  deriving Repr

/-- The context a call left behind, however it ended. -/
def Outcome.state : Outcome → Assert
  | .returned a => a
  | .panicked _ a => a
  | .aborted a => a
  | .callPanicked _ a => a

/-- The functions of the Go standard library that `errMatches` calls. -/
structure Stdlib where
  /-- The function `regexp.MatchString(pattern, s)`: `ok matched`, or `error text` with the
  text of the compile error of the pattern. -/
  MatchString : String → String → Except String Bool
  /-- The rendering of a string by the verb `%q`. -/
  Quote : String → String

/-- The call `fmt.Sprintf("expected %q to match %q but didn't", x, y)`. -/
def Stdlib.sprintfExpectedToMatch (lib : Stdlib) (x y : String) : String :=
  "expected " ++ lib.Quote x ++ " to match " ++ lib.Quote y ++ " but didn't"

/-- The function `New`. -/
def New (t : T) : Assert := { failed := false, t := t }

/-- The final report of `Equal`: `if a.failed { a.t.Errorf(...) }`, then `return a`. -/
def Assert.reportEqual (a : Assert) (got want : Value) : Assert :=
  if a.failed then
    { a with t := (a.t.Errorf "expected values to be equal.\nwanted:\n\t%T(%v)\ngot:\n\t%T(%v)"
        [Arg.value want, Arg.value want, Arg.value got, Arg.value got]) }
  else a

/-- The method `Equal`. -/
def Assert.Equal (a : Assert) (got want : Value) : Assert :=
  let a := { a with t := a.t.Helper }
  let a := { a with failed := false }
  match want with
  | .string w =>
    match got.asString with
    | Option.none =>
      let a := { a with failed := true }
      { a with t := (a.t.Errorf "mismatched types.\nwanted:\n\t(%T)(%v)\ngot:\n\t(%T)(%v)"
          [Arg.value want, Arg.value want, Arg.value got, Arg.value got]) }
    | some g =>
      let a := if g != w then { a with failed := true } else a
      a.reportEqual got want
  | _ =>
    let a := if !reflect.DeepEqual got want then { a with failed := true } else a
    a.reportEqual got want

/-- The method `ErrorSatisfies`; `err = none` is the nil error. -/
def Assert.ErrorSatisfies (a : Assert) (err : Option GoError) (pred : ErrorPredicate) : Outcome :=
  let a := { a with t := a.t.Helper }
  let a := { a with failed := false }
  match err with
  | Option.none =>
    let a := { a with failed := true }
    Outcome.returned
      { a with t := a.t.Errorf "expected error to be not nil, but got %v" [Arg.err Option.none] }
  | some e =>
    match pred e with
    | Call.panicked v => Outcome.callPanicked v a
    | Call.returned (msg, ok) =>
      if !ok then
        let a := { a with failed := true }
        Outcome.returned { a with t := a.t.Error msg }
      else Outcome.returned a

/-- The function `errMatches`. -/
def errMatches (lib : Stdlib) (regex : String) : ErrorPredicate :=
  fun err =>
    match err.Error with
    | Call.panicked v => Call.panicked v
    | Call.returned text =>
      match lib.MatchString regex text with
      | Except.error matchErr => Call.returned (matchErr, false)
      | Except.ok matched =>
        match err.Error with
        | Call.panicked v => Call.panicked v
        | Call.returned text2 =>
          Call.returned (lib.sprintfExpectedToMatch text2 regex, matched)

/-- The method `Error`. -/
def Assert.Error (lib : Stdlib) (a : Assert) (err : Option GoError) (regex : String) : Outcome :=
  let a := { a with t := a.t.Helper }
  let a := { a with failed := false }
  a.ErrorSatisfies err (errMatches lib regex)

/-- The method `False`. -/
def Assert.False (a : Assert) (label : String) (pred : Bool) : Assert :=
  let a := { a with t := a.t.Helper }
  let a := { a with failed := false }
  if pred then
    let a := { a with failed := true }
    { a with t := a.t.Errorf "expected %q to be false, but was actually true" [Arg.str label] }
  else a

/-- The method `Fatal`. -/
def Assert.Fatal (a : Assert) : Outcome :=
  let a := { a with t := a.t.Helper }
  let failed := a.failed
  let a := { a with failed := false }
  if failed then Outcome.aborted a else Outcome.returned a

/-- The method `NotEmpty`. -/
def Assert.NotEmpty (a : Assert) (label : String) (value : Value) : Outcome :=
  let a := { a with t := a.t.Helper }
  let a := { a with failed := false }
  let switched : Outcome :=
    match value.asEmptyReporter with
    | some (Call.returned isEmpty) => Outcome.returned { a with failed := isEmpty }
    | some (Call.panicked v) => Outcome.callPanicked v a
    | Option.none =>
      match value.asZeroReporter with
      | some (Call.returned isZero) => Outcome.returned { a with failed := isZero }
      | some (Call.panicked v) => Outcome.callPanicked v a
      | Option.none =>
        match value.asString with
        | some v => Outcome.returned { a with failed := v == "" }
        | Option.none =>
          Outcome.panicked
            { format := "assert/NotEmpty: unhandled type %T for value %v",
              args := [Arg.value value, Arg.value value] } a
  match switched with
  | Outcome.returned a =>
    if a.failed then
      Outcome.returned
        { a with t := a.t.Errorf "expected %s to not be empty, but it was" [Arg.str label] }
    else Outcome.returned a
  | o => o

/-- The method `OK`; `err = none` is the nil error. -/
def Assert.OK (a : Assert) (err : Option GoError) : Assert :=
  let a := { a with t := a.t.Helper }
  let a := { a with failed := false }
  match err with
  | some e =>
    let a := { a with failed := true }
    { a with t := a.t.Errorf "expected error to be nil, but got %v" [Arg.err (some e)] }
  | Option.none => a

/-- The method `True`. -/
def Assert.True (a : Assert) (label : String) (pred : Bool) : Assert :=
  let a := { a with t := a.t.Helper }
  let a := { a with failed := false }
  if !pred then
    let a := { a with failed := true }
    { a with t := a.t.Errorf "expected %q to be true, but was actually false" [Arg.str label] }
  else a

end assert

/-! ## A reference instance of the standard library

The regular expressions of Go follow the RE2 syntax. The instance below covers a fragment:
literals, `.`, `^`, `$`, groups, alternation, the operators `*`, `+`, `?` (greedy or not)
and backslash before ASCII punctuation. It is used to evaluate concrete calls only; the
general statements hold for every `Stdlib`. -/

namespace regexp

/-- The syntax tree of a regular expression in the modelled fragment of RE2. -/
inductive Regexp where
  /-- The empty expression, matching the empty string. -/
  | empty : Regexp
  /-- One literal character. -/
  | lit (c : Char) : Regexp
  /-- The dot: any character except newline. -/
  | anyCharNotNL : Regexp
  /-- The anchor `^`: the beginning of the text. -/
  | beginText : Regexp
  /-- The anchor `$`: the end of the text. -/
  | endText : Regexp
  /-- Concatenation. -/
  | cat (r s : Regexp) : Regexp
  /-- Alternation. -/
  | alt (r s : Regexp) : Regexp
  /-- Zero or more. -/
  | star (r : Regexp) : Regexp
  /-- One or more. -/
  | plus (r : Regexp) : Regexp
  /-- Zero or one. -/
  | quest (r : Regexp) : Regexp
  deriving Repr, DecidableEq

/-- ASCII letters and digits, the characters after a backslash that do not denote
themselves. -/
def isalnum (c : Char) : Bool :=
  ('0' ≤ c && c ≤ '9') || ('A' ≤ c && c ≤ 'Z') || ('a' ≤ c && c ≤ 'z')

/-- Whether a pattern lies in the modelled fragment: no character class, no counted
repetition, no group flag, and backslash only before ASCII punctuation or at the end. -/
def supported : List Char → Bool
  | [] => true
  | '\\' :: c :: cs => c.toNat < 128 && !isalnum c && supported cs
  | '(' :: '?' :: _ => false
  | c :: cs => c != '[' && c != Char.ofNat 123 && supported cs

/-- The text of a parse error: `error parsing regexp: code: ` followed by the offending
expression between backquotes. -/
def parseError (code : String) (expr : List Char) : String :=
  "error parsing regexp: " ++ code ++ ": `" ++ String.mk expr ++ "`"

/-- A repetition operator applied to an expression. -/
def applyOp (op : Char) (r : Regexp) : Regexp :=
  if op == '*' then Regexp.star r else if op == '+' then Regexp.plus r else Regexp.quest r

/-- Whether a character is one of the repetition operators `*`, `+`, `?`. -/
def isRepeatOp (c : Char) : Bool := c == '*' || c == '+' || c == '?'

/-- The repetition operator, if any, that follows an atom: the operator with its optional
non-greedy mark `?`; a second operator stacked on the first is a parse error. -/
def parseRepeat (r : Regexp) (cs : List Char) : Except String (Regexp × List Char) :=
  match cs with
  | op :: rest =>
    if isRepeatOp op then
      let lazy1 : List Char := if rest.head? = some '?' then ['?'] else []
      let rest1 := rest.drop lazy1.length
      match rest1 with
      | op2 :: rest2 =>
        if isRepeatOp op2 then
          let lazy2 : List Char := if rest2.head? = some '?' then ['?'] else []
          Except.error
            (parseError "invalid nested repetition operator" (op :: lazy1 ++ op2 :: lazy2))
        else Except.ok (applyOp op r, rest1)
      | [] => Except.ok (applyOp op r, rest1)
    else Except.ok (r, cs)
  | [] => Except.ok (r, cs)

/-- The concatenation of the items of a sequence, given last first. -/
def concatRev : List Regexp → Regexp
  | [] => Regexp.empty
  | [r] => r
  | r :: rs => Regexp.cat (concatRev rs) r

/-- The alternation of the finished branches `alts` (last first) and the current one. -/
def altRev (alts : List Regexp) (cur : Regexp) : Regexp :=
  alts.foldl (fun acc r => Regexp.alt r acc) cur

/-- Parses an alternation up to the end of the input or an unmatched `)`, left to right;
`alts` are the finished branches and `cur` the items of the current branch, both last
first. Returns the expression and the rest of the input. -/
def parseSeq (whole : List Char) :
    Nat → List Char → List Regexp → List Regexp → Except String (Regexp × List Char)
  | 0, _, _, _ => Except.error (parseError "regexp model: out of fuel" whole)
  | fuel + 1, cs, alts, cur =>
    match cs with
    | [] => Except.ok (altRev alts (concatRev cur), [])
    | ')' :: _ => Except.ok (altRev alts (concatRev cur), cs)
    | '|' :: rest => parseSeq whole fuel rest (concatRev cur :: alts) []
    | '(' :: rest =>
      match parseSeq whole fuel rest [] [] with
      | Except.error e => Except.error e
      | Except.ok (r, ')' :: rest1) =>
        match parseRepeat r rest1 with
        | Except.error e => Except.error e
        | Except.ok (r1, rest2) => parseSeq whole fuel rest2 alts (r1 :: cur)
      | Except.ok (_, _) => Except.error (parseError "missing closing )" whole)
    | '\\' :: [] => Except.error (parseError "trailing backslash at end of expression" [])
    | '\\' :: c :: rest =>
      match parseRepeat (Regexp.lit c) rest with
      | Except.error e => Except.error e
      | Except.ok (r1, rest2) => parseSeq whole fuel rest2 alts (r1 :: cur)
    | c :: rest =>
      if isRepeatOp c then
        Except.error (parseError "missing argument to repetition operator"
          (c :: (if rest.head? = some '?' then ['?'] else [])))
      else
        let atom :=
          if c == '.' then Regexp.anyCharNotNL
          else if c == '^' then Regexp.beginText
          else if c == '$' then Regexp.endText
          else Regexp.lit c
        match parseRepeat atom rest with
        | Except.error e => Except.error e
        | Except.ok (r1, rest2) => parseSeq whole fuel rest2 alts (r1 :: cur)

/-- The parser: `ok` with the syntax tree, or `error` with the text of the parse error. -/
def parse (pattern : List Char) : Except String Regexp :=
  match parseSeq pattern (pattern.length + 1) pattern [] [] with
  | Except.error e => Except.error e
  | Except.ok (r, []) => Except.ok r
  | Except.ok (_, _) => Except.error (parseError "unexpected )" pattern)

/-- The iteration of a star: zero rounds, or one round of `step` that consumes input
followed by the iteration again. -/
def starLoop (step : Bool → List Char → (Bool → List Char → Bool) → Bool) :
    Nat → Bool → List Char → (Bool → List Char → Bool) → Bool
  | 0, b, s, k => k b s
  | n + 1, b, s, k =>
    k b s || step b s (fun b1 s1 => decide (s1.length < s.length) && starLoop step n b1 s1 k)

/-- Whether the expression matches a beginning of `s` such that the continuation `k`
accepts the rest; `b` tells whether `s` is the whole text (nothing consumed before it). -/
def Regexp.matchFrom : Regexp → Bool → List Char → (Bool → List Char → Bool) → Bool
  | .empty, b, s, k => k b s
  | .lit c, _, s, k =>
    match s with
    | d :: s1 => d == c && k false s1
    | [] => false
  | .anyCharNotNL, _, s, k =>
    match s with
    | d :: s1 => d != '\n' && k false s1
    | [] => false
  | .beginText, b, s, k => b && k b s
  | .endText, b, s, k => s.isEmpty && k b s
  | .cat r1 r2, b, s, k => r1.matchFrom b s (fun b1 s1 => r2.matchFrom b1 s1 k)
  | .alt r1 r2, b, s, k => r1.matchFrom b s k || r2.matchFrom b s k
  | .star r, b, s, k => starLoop (fun b1 s1 k1 => r.matchFrom b1 s1 k1) (s.length + 1) b s k
  | .plus r, b, s, k =>
    r.matchFrom b s
      (fun b1 s1 => starLoop (fun b2 s2 k2 => r.matchFrom b2 s2 k2) (s1.length + 1) b1 s1 k)
  | .quest r, b, s, k => k b s || r.matchFrom b s k

/-- Whether the expression matches some substring of the text: a match is tried at every
offset, the first one being the beginning of the text. -/
def Regexp.search (re : Regexp) : Bool → List Char → Bool
  | b, [] => re.matchFrom b [] (fun _ _ => true)
  | b, c :: cs => re.matchFrom b (c :: cs) (fun _ _ => true) || re.search false cs

/-- Model of `regexp.MatchString(pattern, s)` on the supported fragment: the text of the
parse error when the pattern does not compile, else whether the pattern matches somewhere
in `s`. A pattern outside the fragment gets an error of the model itself. -/
def MatchString (pattern s : String) : Except String Bool :=
  if supported pattern.data then
    match parse pattern.data with
    | Except.error e => Except.error e
    | Except.ok re => Except.ok (re.search true s.data)
  else Except.error "regexp model: pattern outside the modelled fragment"

end regexp

namespace strconv

/-- The hexadecimal digit of a number below sixteen. -/
def hexDigit (n : Nat) : Char := "0123456789abcdef".data.getD n '0'

/-- The rendering of one character inside a quoted string: the quote and the backslash get
a backslash, printable ASCII stands for itself, control characters get their Go escape.
Characters beyond ASCII are taken to be printable. -/
def quoteChar (c : Char) : List Char :=
  if c == '"' || c == '\\' then ['\\', c]
  else if 32 ≤ c.toNat && c.toNat < 127 then [c]
  else if c.toNat = 7 then ['\\', 'a']
  else if c.toNat = 8 then ['\\', 'b']
  else if c.toNat = 12 then ['\\', 'f']
  else if c.toNat = 10 then ['\\', 'n']
  else if c.toNat = 13 then ['\\', 'r']
  else if c.toNat = 9 then ['\\', 't']
  else if c.toNat = 11 then ['\\', 'v']
  else if c.toNat < 32 || c.toNat = 127 then
    ['\\', 'x', hexDigit (c.toNat / 16), hexDigit (c.toNat % 16)]
  else [c]

/-- Model of `strconv.Quote`, which renders the verb `%q` of a string: the text between
double quotes with each character escaped as `quoteChar` says. -/
def Quote (s : String) : String :=
  String.mk ('"' :: (s.data.flatMap quoteChar ++ ['"']))

end strconv

namespace assert

/-- The reference instance of the standard library. -/
def goStdlib : Stdlib :=
  { MatchString := regexp.MatchString, Quote := strconv.Quote }

end assert

namespace assert

/-! ## Vocabulary of the statements -/

/-- The record `Equal` logs on a type mismatch. -/
def typeMismatch (got want : Value) : Failure :=
  Failure.Errorf
    { format := "mismatched types.\nwanted:\n\t(%T)(%v)\ngot:\n\t(%T)(%v)",
      args := [Arg.value want, Arg.value want, Arg.value got, Arg.value got] }

/-- The record `Equal` logs on a value mismatch. -/
def valueMismatch (got want : Value) : Failure :=
  Failure.Errorf
    { format := "expected values to be equal.\nwanted:\n\t%T(%v)\ngot:\n\t%T(%v)",
      args := [Arg.value want, Arg.value want, Arg.value got, Arg.value got] }

/-- The format string of a logged failure, when it was logged through `Errorf`. -/
def Failure.format : Failure → Option String
  | .Errorf msg => some msg.format
  | .Error _ => Option.none

mutual
/-- The deep structure of a value: the value with the identity of every pointer and slice
in it forgotten.  Two values have identical deep structure when their shapes are equal. -/
def Value.shape : Value → Value
  | .nil => .nil
  | .bool b => .bool b
  | .int n => .int n
  | .float64 bits => .float64 bits
  | .string s => .string s
  | .func t c => .func t c
  | .nilPointer t m => .nilPointer t m
  | .pointer t m _ x => .pointer t m 0 x.shape
  | .nilSlice t => .nilSlice t
  | .slice t _ xs => .slice t 0 (shapeList xs)
  | .array t xs => .array t (shapeList xs)
  | .defined n m xs => .defined n m (shapeList xs)
/-- The shapes of a list of components. -/
def shapeList : List Value → List Value
  | [] => []
  | x :: xs => x.shape :: shapeList xs
end

mutual
/-- Whether a value holds neither a NaN nor a non-nil func, the two kinds of value that
`==` and `reflect.DeepEqual` do not find equal to themselves. -/
def Value.plain : Value → Bool
  | .nil => true
  | .bool _ => true
  | .int _ => true
  | .float64 bits => !float64.isNaN bits
  | .string _ => true
  | .func _ c => c.isNone
  | .nilPointer _ _ => true
  | .pointer _ _ _ x => x.plain
  | .nilSlice _ => true
  | .slice _ _ xs => plainList xs
  | .array _ xs => plainList xs
  | .defined _ _ xs => plainList xs
/-- Whether every component of a list is plain. -/
def plainList : List Value → Bool
  | [] => true
  | x :: xs => x.plain && plainList xs
end

/-- The record `NotEmpty` logs when the value is empty. -/
def notEmptyFailure (label : String) : Failure :=
  Failure.Errorf
    { format := "expected %s to not be empty, but it was", args := [Arg.str label] }

/-- The value `NotEmpty` panics with on a value of an unhandled type. -/
def unhandledType (value : Value) : Formatted :=
  { format := "assert/NotEmpty: unhandled type %T for value %v",
    args := [Arg.value value, Arg.value value] }

/-- The record `ErrorSatisfies` logs on a nil error. -/
def nilErrorFailure : Failure :=
  Failure.Errorf
    { format := "expected error to be not nil, but got %v", args := [Arg.err Option.none] }

/-- The record `OK` logs on a non-nil error. -/
def notNilFailure (e : GoError) : Failure :=
  Failure.Errorf
    { format := "expected error to be nil, but got %v", args := [Arg.err (some e)] }

/-- One call of a check method with its arguments. -/
inductive Check where
  /-- The call `a.Equal(got, want)`. -/
  | Equal (got want : Value) : Check
  /-- The call `a.NotEmpty(label, value)`. -/
  | NotEmpty (label : String) (value : Value) : Check
  /-- The call `a.Error(err, regex)`. -/
  | Error (err : Option GoError) (regex : String) : Check
  /-- The call `a.ErrorSatisfies(err, pred)`. -/
  | ErrorSatisfies (err : Option GoError) (pred : ErrorPredicate) : Check
  /-- The call `a.True(label, pred)`. -/
  | True (label : String) (pred : Bool) : Check
  /-- The call `a.False(label, pred)`. -/
  | False (label : String) (pred : Bool) : Check
  /-- The call `a.OK(err)`. -/
  | OK (err : Option GoError) : Check

/-- Runs one check on the context `a`. `Equal`, `True`, `False` and `OK` call no code
supplied by the caller and have no `panic` and no `FailNow`, so they return. -/
def Check.run (lib : Stdlib) (a : Assert) : Check → Outcome
  | .Equal got want => Outcome.returned (a.Equal got want)
  | .NotEmpty label value => a.NotEmpty label value
  | .Error err regex => a.Error lib err regex
  | .ErrorSatisfies err pred => a.ErrorSatisfies err pred
  | .True label pred => Outcome.returned (a.True label pred)
  | .False label pred => Outcome.returned (a.False label pred)
  | .OK err => Outcome.returned (a.OK err)

/-- Runs the chain `a.c1(...).c2(...)...`: each check runs on the context the one before
it returned; a check that does not return ends the chain. -/
def runChain (lib : Stdlib) : Assert → List Check → Outcome
  | a, [] => Outcome.returned a
  | a, c :: cs =>
    match c.run lib a with
    | Outcome.returned a1 => runChain lib a1 cs
    | o => o

/-- The test body `New(t).c1(...)...cn(...).Fatal()`. -/
def chainThenFatal (lib : Stdlib) (t : T) (cs : List Check) : Outcome :=
  match runChain lib (New t) cs with
  | Outcome.returned a => a.Fatal
  | o => o

/-- What a returning call may change: the flag, and the log by appending `new`, which holds
one record when the flag ends up set and none otherwise. -/
def Effect (a a' : Assert) (new : List Failure) : Prop :=
  a' = { failed := a'.failed, t := { a.t with failures := a.t.failures ++ new } } ∧
  new.length = (if a'.failed then 1 else 0)

/-- A fresh test handle with nothing logged. -/
def freshT : T := { name := "TestExample", failures := [] }

end assert

namespace assert

theorem asString_eq_none {v : Value} (h : ∀ s, v ≠ Value.string s) : v.asString = Option.none := by
  cases v <;> simp_all [Value.asString]

theorem typeMismatch_ne_valueMismatch (g w g' w' : Value) :
    typeMismatch g w ≠ valueMismatch g' w' := by
  intro h
  simp [typeMismatch, valueMismatch] at h

/-! ## Equal -/

/-- C1: when `want` is a string and `got` is not, `Equal` sets the failed flag and logs
exactly one failure, the type-mismatch record, which is never a value-mismatch record. -/
theorem Equal_string_want_nonstring_got (a : Assert) (got : Value) (w : String)
    (hgot : ∀ s, got ≠ Value.string s) :
    (a.Equal got (Value.string w)).failed = true ∧
    (a.Equal got (Value.string w)).t.failures
      = a.t.failures ++ [typeMismatch got (Value.string w)] ∧
    (∀ g' w', typeMismatch got (Value.string w) ≠ valueMismatch g' w') := by
  have h := asString_eq_none hgot
  refine ⟨?_, ?_, fun g' w' => typeMismatch_ne_valueMismatch _ _ _ _⟩ <;>
    simp [Assert.Equal, h, T.Errorf, T.Helper, typeMismatch]

theorem Equal_string_want_nonstring_got_witness :
    (∀ s, Value.int 5 ≠ Value.string s) ∧
    ((New freshT).Equal (Value.int 5) (Value.string "x")).failed = true ∧
    ((New freshT).Equal (Value.int 5) (Value.string "x")).t.failures
      = [typeMismatch (Value.int 5) (Value.string "x")] :=
  ⟨(by intro s h; cases h),
   (Equal_string_want_nonstring_got (New freshT) (Value.int 5) "x" (by intro s h; cases h)).1,
   (Equal_string_want_nonstring_got (New freshT) (Value.int 5) "x" (by intro s h; cases h)).2.1⟩

/-- C2 as stated fails: in `Equal("x", 5)` the argument `want` is the integer, so the
string case is not entered and the one record logged is not the type-mismatch record. -/
theorem Equal_x_5_not_typeMismatch :
    ¬ (((New freshT).Equal (Value.string "x") (Value.int 5)).t.failures
        = [typeMismatch (Value.string "x") (Value.int 5)]) ∧
    (((New freshT).Equal (Value.string "x") (Value.int 5)).t.failures.map Failure.format
        ≠ [some "mismatched types.\nwanted:\n\t(%T)(%v)\ngot:\n\t(%T)(%v)"]) := by
  constructor
  · simp [Assert.Equal, Assert.reportEqual, New, freshT, T.Errorf, T.Helper, reflect.DeepEqual,
      typeMismatch]
  · simp [Assert.Equal, Assert.reportEqual, New, freshT, T.Errorf, T.Helper, reflect.DeepEqual,
      Failure.format]

/-- C2 amended: `Equal("x", 5)` fails with exactly one record, the value-mismatch record;
the type-mismatch record is what the mirrored call `Equal(5, "x")` logs, where `want` is
the string. -/
theorem Equal_x_5_valueMismatch :
    ((New freshT).Equal (Value.string "x") (Value.int 5)).failed = true ∧
    ((New freshT).Equal (Value.string "x") (Value.int 5)).t.failures
      = [valueMismatch (Value.string "x") (Value.int 5)] ∧
    ((New freshT).Equal (Value.int 5) (Value.string "x")).failed = true ∧
    ((New freshT).Equal (Value.int 5) (Value.string "x")).t.failures
      = [typeMismatch (Value.int 5) (Value.string "x")] := by
  simp [Assert.Equal, Assert.reportEqual, New, freshT, T.Errorf, T.Helper, reflect.DeepEqual,
    valueMismatch, typeMismatch, Value.asString]

/-- C3: on two strings `Equal` compares the texts: equal texts leave the flag false and log
nothing, different texts set the flag and log one value-mismatch record; `Equal(s, s)`
always succeeds. -/
theorem Equal_strings (a : Assert) (s t : String) :
    (a.Equal (Value.string s) (Value.string t)).failed = decide (s ≠ t) ∧
    (a.Equal (Value.string s) (Value.string t)).t.failures
      = a.t.failures ++
          (if s = t then [] else [valueMismatch (Value.string s) (Value.string t)]) ∧
    (a.Equal (Value.string s) (Value.string s)).failed = false ∧
    (a.Equal (Value.string s) (Value.string s)).t.failures = a.t.failures := by
  refine ⟨?_, ?_, ?_, ?_⟩
  · by_cases h : s = t <;>
      simp [Assert.Equal, Assert.reportEqual, Value.asString, T.Errorf, T.Helper, h]
  · by_cases h : s = t <;>
      simp [Assert.Equal, Assert.reportEqual, Value.asString, T.Errorf, T.Helper, h,
        valueMismatch]
  · simp [Assert.Equal, Assert.reportEqual, Value.asString, T.Errorf, T.Helper]
  · simp [Assert.Equal, Assert.reportEqual, Value.asString, T.Errorf, T.Helper]

theorem float64_eq_self (x : Nat) (h : float64.isNaN x = false) : float64.eq x x = true := by
  simp [float64.eq, h]

theorem shapeList_length : ∀ xs : List Value, (shapeList xs).length = xs.length
  | [] => by simp [shapeList]
  | x :: xs => by simp [shapeList, shapeList_length xs]

mutual
theorem DeepEqual_of_shape_eq : ∀ (g w : Value), g.shape = w.shape → g.plain = true →
    reflect.DeepEqual g w = true
  | .nil, w, h, _ => by cases w <;> simp_all [Value.shape, reflect.DeepEqual]
  | .bool _, w, h, _ => by cases w <;> simp_all [Value.shape, reflect.DeepEqual]
  | .int _, w, h, _ => by cases w <;> simp_all [Value.shape, reflect.DeepEqual]
  | .float64 x, w, h, hp => by
    cases w with
    | float64 y =>
      simp only [Value.shape, Value.float64.injEq] at h
      subst h
      simp only [Value.plain, Bool.not_eq_true'] at hp
      simp [reflect.DeepEqual, float64_eq_self x hp]
    | _ => simp [Value.shape] at h
  | .string _, w, h, _ => by cases w <;> simp_all [Value.shape, reflect.DeepEqual]
  | .func _ c, w, h, hp => by
    cases w with
    | func u d =>
      simp only [Value.shape, Value.func.injEq] at h
      obtain ⟨rfl, rfl⟩ := h
      simp only [Value.plain] at hp
      simp [reflect.DeepEqual, hp]
    | _ => simp [Value.shape] at h
  | .nilPointer _ _, w, h, _ => by cases w <;> simp_all [Value.shape, reflect.DeepEqual]
  | .pointer _ _ _ x, w, h, hp => by
    cases w with
    | pointer u m b y =>
      simp only [Value.shape, Value.pointer.injEq] at h
      simp only [Value.plain] at hp
      simp [reflect.DeepEqual, h.1, DeepEqual_of_shape_eq x y h.2.2.2 hp]
    | _ => simp [Value.shape] at h
  | .nilSlice _, w, h, _ => by cases w <;> simp_all [Value.shape, reflect.DeepEqual]
  | .slice _ _ xs, w, h, hp => by
    cases w with
    | slice u b ys =>
      simp only [Value.shape, Value.slice.injEq] at h
      simp only [Value.plain] at hp
      have hl : xs.length = ys.length := by
        have := congrArg List.length h.2.2
        simpa [shapeList_length] using this
      simp [reflect.DeepEqual, h.1, hl, DeepEqualList_of_shape_eq xs ys h.2.2 hp]
    | _ => simp [Value.shape] at h
  | .array _ xs, w, h, hp => by
    cases w with
    | array u ys =>
      simp only [Value.shape, Value.array.injEq] at h
      simp only [Value.plain] at hp
      simp [reflect.DeepEqual, h.1, DeepEqualList_of_shape_eq xs ys h.2 hp]
    | _ => simp [Value.shape] at h
  | .defined _ _ xs, w, h, hp => by
    cases w with
    | defined n m ys =>
      simp only [Value.shape, Value.defined.injEq] at h
      simp only [Value.plain] at hp
      simp [reflect.DeepEqual, h.1, DeepEqualList_of_shape_eq xs ys h.2.2 hp]
    | _ => simp [Value.shape] at h
theorem DeepEqualList_of_shape_eq : ∀ (gs ws : List Value), shapeList gs = shapeList ws →
    plainList gs = true → reflect.DeepEqualList gs ws = true
  | [], ws, h, _ => by cases ws <;> simp_all [shapeList, reflect.DeepEqualList]
  | x :: xs, ws, h, hp => by
    cases ws with
    | nil => simp [shapeList] at h
    | cons y ys =>
      simp only [shapeList, List.cons.injEq] at h
      simp only [plainList, Bool.and_eq_true] at hp
      simp [reflect.DeepEqualList, DeepEqual_of_shape_eq x y h.1 hp.1,
        DeepEqualList_of_shape_eq xs ys h.2 hp.2]
end

theorem Equal_default_case (a : Assert) (got want : Value) (hw : ∀ s, want ≠ Value.string s) :
    a.Equal got want
      = (if reflect.DeepEqual got want then { a with failed := false }
         else { failed := true, t := { a.t with failures := a.t.failures ++ [valueMismatch got want] } }) := by
  cases want
  case string s => exact absurd rfl (hw s)
  all_goals
    simp only [Assert.Equal]
    split <;> simp_all [Assert.reportEqual, T.Errorf, T.Helper, valueMismatch]

/-- C4 as stated fails: a NaN has the same deep structure as itself and is not a string,
yet `Equal(NaN, NaN)` sets the flag and logs the value-mismatch record; the same holds for
a non-nil func compared with itself. -/
theorem Equal_NaN_fails :
    (∀ s, Value.float64 float64.NaN ≠ Value.string s) ∧
    (Value.float64 float64.NaN).shape = (Value.float64 float64.NaN).shape ∧
    ((New freshT).Equal (Value.float64 float64.NaN) (Value.float64 float64.NaN)).failed = true ∧
    ((New freshT).Equal (Value.float64 float64.NaN) (Value.float64 float64.NaN)).t.failures
      = [valueMismatch (Value.float64 float64.NaN) (Value.float64 float64.NaN)] ∧
    ((New freshT).Equal (Value.func "func()" (some 1)) (Value.func "func()" (some 1))).failed
      = true := by
  refine ⟨(by intro s h; cases h), rfl, ?_, ?_, ?_⟩
  · rfl
  · rfl
  · rfl

/-- C4 amended: when `want` is not a string, `Equal` succeeds (flag false, nothing logged)
exactly when `reflect.DeepEqual(got, want)` is true and otherwise sets the flag and logs one
value-mismatch record. Values of identical deep structure that hold no NaN and no non-nil
func compare equal whatever the identities of the pointers and slices in them. Values of
different types, lengths or elements, a nil and an empty slice, a NaN and itself, and a
non-nil func and itself do not compare equal. -/
theorem Equal_nonstring_want (a : Assert) (got want : Value)
    (hw : ∀ s, want ≠ Value.string s) :
    (a.Equal got want).failed = !reflect.DeepEqual got want ∧
    (a.Equal got want).t.failures
      = a.t.failures ++ (if reflect.DeepEqual got want then [] else [valueMismatch got want]) ∧
    (((a.Equal got want).failed = false ∧ (a.Equal got want).t.failures = a.t.failures)
      ↔ reflect.DeepEqual got want = true) ∧
    (got.shape = want.shape → got.plain = true →
      (a.Equal got want).failed = false ∧ (a.Equal got want).t.failures = a.t.failures) ∧
    reflect.DeepEqual (Value.int 1) (Value.int 2) = false ∧
    reflect.DeepEqual (Value.int 1) (Value.float64 0) = false ∧
    reflect.DeepEqual (Value.slice "int" 1 [Value.int 1, Value.int 2])
      (Value.slice "int" 2 [Value.int 1, Value.int 3]) = false ∧
    reflect.DeepEqual (Value.slice "int" 1 [Value.int 1])
      (Value.slice "int" 2 [Value.int 1, Value.int 1]) = false ∧
    reflect.DeepEqual (Value.nilSlice "int") (Value.slice "int" 1 []) = false ∧
    reflect.DeepEqual (Value.defined "P" Methods.none [Value.int 1, Value.string "a"])
      (Value.defined "P" Methods.none [Value.int 1, Value.string "b"]) = false ∧
    reflect.DeepEqual (Value.pointer "interface" Methods.none 1 (Value.int 1))
      (Value.pointer "int" Methods.none 2 (Value.int 1)) = false ∧
    reflect.DeepEqual (Value.pointer "S" Methods.none 7 (Value.defined "S" Methods.none [Value.int 1]))
      (Value.pointer "int" Methods.none 7 (Value.int 1)) = false ∧
    reflect.DeepEqual (Value.float64 float64.NaN) (Value.float64 float64.NaN) = false ∧
    reflect.DeepEqual (Value.func "func()" (some 1)) (Value.func "func()" (some 1)) = false := by
  rw [Equal_default_case a got want hw]
  refine ⟨?_, ?_, ?_, ?_, ?_, ?_, ?_, ?_, ?_, ?_, ?_, ?_, ?_, ?_⟩
  · by_cases h : reflect.DeepEqual got want = true <;> simp [h]
  · by_cases h : reflect.DeepEqual got want = true <;> simp [h]
  · by_cases h : reflect.DeepEqual got want = true <;> simp [h]
  · intro hs hp
    simp [DeepEqual_of_shape_eq got want hs hp]
  all_goals decide

theorem Equal_nonstring_want_witness :
    (∀ s, Value.pointer "[]int" Methods.none 2 (Value.slice "int" 4 [Value.int 1])
      ≠ Value.string s) ∧
    (Value.pointer "[]int" Methods.none 1 (Value.slice "int" 3 [Value.int 1])).shape
      = (Value.pointer "[]int" Methods.none 2 (Value.slice "int" 4 [Value.int 1])).shape ∧
    (Value.pointer "[]int" Methods.none 1 (Value.slice "int" 3 [Value.int 1])).plain = true ∧
    ((New freshT).Equal (Value.pointer "[]int" Methods.none 1 (Value.slice "int" 3 [Value.int 1]))
        (Value.pointer "[]int" Methods.none 2 (Value.slice "int" 4 [Value.int 1]))).failed
      = false ∧
    ((New freshT).Equal (Value.pointer "[]int" Methods.none 1 (Value.slice "int" 3 [Value.int 1]))
        (Value.pointer "[]int" Methods.none 2 (Value.slice "int" 4 [Value.int 1]))).t.failures
      = [] :=
  ⟨(by intro s h; cases h), (by simp [Value.shape, shapeList]), (by decide),
   ((Equal_nonstring_want (New freshT)
      (Value.pointer "[]int" Methods.none 1 (Value.slice "int" 3 [Value.int 1]))
      (Value.pointer "[]int" Methods.none 2 (Value.slice "int" 4 [Value.int 1]))
      (by intro s h; cases h)).2.2.2.1 (by simp [Value.shape, shapeList]) (by decide)).1,
   ((Equal_nonstring_want (New freshT)
      (Value.pointer "[]int" Methods.none 1 (Value.slice "int" 3 [Value.int 1]))
      (Value.pointer "[]int" Methods.none 2 (Value.slice "int" 4 [Value.int 1]))
      (by intro s h; cases h)).2.2.2.1 (by simp [Value.shape, shapeList]) (by decide)).2⟩

/-! ## NotEmpty -/

/-- C5: on a value that is neither an `EmptyReporter`, nor a `ZeroReporter`, nor a string,
`NotEmpty` panics with the usage error built from the value (its type through `%T`), logs
no failure, and does not return. -/
theorem NotEmpty_unhandled_type (a : Assert) (label : String) (value : Value)
    (hE : value.asEmptyReporter = Option.none) (hZ : value.asZeroReporter = Option.none)
    (hS : ∀ s, value ≠ Value.string s) :
    a.NotEmpty label value = Outcome.panicked (unhandledType value) { a with failed := false } ∧
    (a.NotEmpty label value).state.t.failures = a.t.failures ∧
    (∀ a', a.NotEmpty label value ≠ Outcome.returned a') := by
  have h := asString_eq_none hS
  have key : a.NotEmpty label value
      = Outcome.panicked (unhandledType value) { a with failed := false } := by
    simp [Assert.NotEmpty, hE, hZ, h, unhandledType, T.Helper]
  refine ⟨key, ?_, ?_⟩
  · rw [key]; rfl
  · intro a' h'
    rw [key] at h'
    cases h'

theorem NotEmpty_unhandled_type_witness :
    (Value.int 42).asEmptyReporter = Option.none ∧ (Value.int 42).asZeroReporter = Option.none ∧
    (∀ s, Value.int 42 ≠ Value.string s) ∧
    (New freshT).NotEmpty "answer" (Value.int 42)
      = Outcome.panicked (unhandledType (Value.int 42)) (New freshT) :=
  ⟨rfl, rfl, (by intro s h; cases h),
   (NotEmpty_unhandled_type (New freshT) "answer" (Value.int 42) rfl rfl
      (by intro s h; cases h)).1⟩

/-- C6: `NotEmpty` asks `IsEmpty` first: a value with an `IsEmpty` method fails exactly when
`IsEmpty()` returns true, whatever `IsZero()` would do; a value with `IsZero` and without
`IsEmpty` fails exactly when `IsZero()` returns true. A failing check logs one record. -/
theorem NotEmpty_dispatch_priority (a : Assert) (label : String) (value : Value) :
    (∀ b, value.asEmptyReporter = some (Call.returned b) →
      a.NotEmpty label value
        = Outcome.returned
            { failed := b,
              t := { a.t with
                failures := a.t.failures ++ (if b then [notEmptyFailure label] else []) } }) ∧
    (∀ b, value.asEmptyReporter = Option.none →
      value.asZeroReporter = some (Call.returned b) →
      a.NotEmpty label value
        = Outcome.returned
            { failed := b,
              t := { a.t with
                failures := a.t.failures ++ (if b then [notEmptyFailure label] else []) } }) := by
  constructor
  · intro b hE
    cases b <;> simp [Assert.NotEmpty, hE, notEmptyFailure, T.Helper, T.Errorf]
  · intro b hE hZ
    cases b <;> simp [Assert.NotEmpty, hE, hZ, notEmptyFailure, T.Helper, T.Errorf]

theorem NotEmpty_dispatch_priority_witness :
    (New freshT).NotEmpty "box"
        (Value.defined "Box" { IsEmpty := some (Call.returned false), IsZero := some (Call.returned true) } [])
      = Outcome.returned (New freshT) ∧
    (New freshT).NotEmpty "box"
        (Value.defined "Box" { IsEmpty := Option.none, IsZero := some (Call.returned true) } [])
      = Outcome.returned
          { failed := true, t := { freshT with failures := [notEmptyFailure "box"] } } :=
  ⟨(NotEmpty_dispatch_priority (New freshT) "box"
      (Value.defined "Box" { IsEmpty := some (Call.returned false), IsZero := some (Call.returned true) } [])).1 false rfl,
   (NotEmpty_dispatch_priority (New freshT) "box"
      (Value.defined "Box" { IsEmpty := Option.none, IsZero := some (Call.returned true) } [])).2 true rfl rfl⟩

theorem string_eq_empty_iff (s : String) : s = "" ↔ s.length = 0 := by
  constructor
  · intro h; subst h; rfl
  · intro h
    cases s with
    | mk data =>
      have hd : data = [] := List.length_eq_zero.mp h
      subst hd; rfl

/-- C7: on a string `NotEmpty` returns, and it fails (flag set, one record naming the
label) exactly when the string has length zero; `""` fails and `"a"` succeeds. -/
theorem NotEmpty_string (a : Assert) (label s : String) :
    a.NotEmpty label (Value.string s)
      = Outcome.returned
          { failed := decide (s.length = 0),
            t := { a.t with
              failures := a.t.failures ++
                (if s.length = 0 then [notEmptyFailure label] else []) } } ∧
    a.NotEmpty label (Value.string "")
      = Outcome.returned
          { failed := true,
            t := { a.t with failures := a.t.failures ++ [notEmptyFailure label] } } ∧
    a.NotEmpty label (Value.string "a") = Outcome.returned { a with failed := false } := by
  refine ⟨?_, ?_, ?_⟩
  · by_cases h : s.length = 0
    · have hs : s = "" := (string_eq_empty_iff s).mpr h
      subst hs
      simp [Assert.NotEmpty, Value.asEmptyReporter, Value.asZeroReporter, Value.methods,
        Methods.none, Value.asString, notEmptyFailure, T.Helper, T.Errorf]
    · have hs : ¬ s = "" := fun e => h ((string_eq_empty_iff s).mp e)
      simp [Assert.NotEmpty, Value.asEmptyReporter, Value.asZeroReporter, Value.methods,
        Methods.none, Value.asString, notEmptyFailure, T.Helper, T.Errorf, h, hs]
  · simp [Assert.NotEmpty, Value.asEmptyReporter, Value.asZeroReporter, Value.methods,
      Methods.none, Value.asString, notEmptyFailure, T.Helper, T.Errorf]
  · simp [Assert.NotEmpty, Value.asEmptyReporter, Value.asZeroReporter, Value.methods,
      Methods.none, Value.asString, notEmptyFailure, T.Helper, T.Errorf]


/-! ## ErrorSatisfies -/

theorem ErrorSatisfies_nil (a : Assert) (p : ErrorPredicate) :
    a.ErrorSatisfies Option.none p
      = Outcome.returned
          { failed := true, t := { a.t with failures := a.t.failures ++ [nilErrorFailure] } } := by
  simp [Assert.ErrorSatisfies, nilErrorFailure, T.Helper, T.Errorf]

theorem ErrorSatisfies_returned (a : Assert) (p : ErrorPredicate) (e : GoError)
    (msg : String) (ok : Bool) (h : p e = Call.returned (msg, ok)) :
    a.ErrorSatisfies (some e) p
      = Outcome.returned
          { failed := !ok,
            t := { a.t with
              failures := a.t.failures ++ (if ok then [] else [Failure.Error msg]) } } := by
  cases ok <;> simp [Assert.ErrorSatisfies, h, T.Helper, T.Error]

theorem ErrorSatisfies_panicked (a : Assert) (p : ErrorPredicate) (e : GoError)
    (v : String) (h : p e = Call.panicked v) :
    a.ErrorSatisfies (some e) p = Outcome.callPanicked v { a with failed := false } := by
  simp [Assert.ErrorSatisfies, h, T.Helper]

/-- C8: on the nil error `ErrorSatisfies` fails with its own record and the result does not
depend on the predicate, which is not called: it is the same for a predicate that panics
or is nil; on a non-nil error on which the predicate returns, it fails exactly when the
predicate answers not satisfied, and then logs through `t.Error` the very text the
predicate returned; when the predicate is satisfied nothing is logged. -/
theorem ErrorSatisfies_spec (a : Assert) (p : ErrorPredicate) :
    a.ErrorSatisfies Option.none p
      = Outcome.returned
          { failed := true, t := { a.t with failures := a.t.failures ++ [nilErrorFailure] } } ∧
    (∀ q : ErrorPredicate, a.ErrorSatisfies Option.none q = a.ErrorSatisfies Option.none p) ∧
    (∀ (e : GoError) (msg : String) (ok : Bool), p e = Call.returned (msg, ok) →
      a.ErrorSatisfies (some e) p
        = Outcome.returned
            { failed := !ok,
              t := { a.t with
                failures := a.t.failures ++ (if ok then [] else [Failure.Error msg]) } }) := by
  refine ⟨ErrorSatisfies_nil a p, ?_, ?_⟩
  · intro q
    rw [ErrorSatisfies_nil, ErrorSatisfies_nil]
  · intro e msg ok h
    exact ErrorSatisfies_returned a p e msg ok h

theorem ErrorSatisfies_spec_witness :
    (New freshT).ErrorSatisfies (some (errors.New "boom")) (fun _ => Call.returned ("not found", false))
      = Outcome.returned
          { failed := true, t := { freshT with failures := [Failure.Error "not found"] } } ∧
    (New freshT).ErrorSatisfies Option.none nilPredicate
      = Outcome.returned { failed := true, t := { freshT with failures := [nilErrorFailure] } } :=
  ⟨(ErrorSatisfies_spec (New freshT) (fun _ => Call.returned ("not found", false))).2.2
      (errors.New "boom") "not found" false rfl,
   (ErrorSatisfies_spec (New freshT) nilPredicate).1⟩

/-! ## Fatal -/

/-- C10: `Fatal` aborts the test exactly when the failed flag was set on entry; either way
the flag is false afterwards and nothing is logged; with the flag clear `Fatal` returns and
changes nothing. After a failing check it aborts, after a passing check it is a no-op. -/
theorem Fatal_spec (a : Assert) :
    ((∃ a', a.Fatal = Outcome.aborted a') ↔ a.failed = true) ∧
    ((∃ a', a.Fatal = Outcome.returned a') ↔ a.failed = false) ∧
    a.Fatal.state.failed = false ∧
    a.Fatal.state.t = a.t ∧
    (a.failed = false → a.Fatal = Outcome.returned a) ∧
    (∃ a', ((New freshT).True "x" false).Fatal = Outcome.aborted a') ∧
    ((New freshT).True "x" true).Fatal = Outcome.returned ((New freshT).True "x" true) := by
  refine ⟨?_, ?_, ?_, ?_, ?_, ?_, ?_⟩
  · cases h : a.failed <;> simp [Assert.Fatal, h]
  · cases h : a.failed <;> simp [Assert.Fatal, h]
  · cases h : a.failed <;> simp [Assert.Fatal, h, Outcome.state]
  · cases h : a.failed <;> simp [Assert.Fatal, h, Outcome.state, T.Helper]
  · intro h
    cases a with
    | mk failed t =>
      simp only at h
      subst h
      simp [Assert.Fatal, T.Helper]
  · simp [Assert.Fatal, Assert.True]
  · simp [Assert.Fatal, Assert.True, New, T.Helper]

theorem Fatal_spec_witness :
    (New freshT).failed = false ∧ (New freshT).Fatal = Outcome.returned (New freshT) :=
  ⟨rfl, (Fatal_spec (New freshT)).2.2.2.2.1 rfl⟩

/-! ## Error -/

/-- The search of the reference engine is unanchored: it succeeds exactly when the
expression matches from some offset of the text, the text before the offset and after the
match being arbitrary. -/
theorem search_iff (re : regexp.Regexp) : ∀ (b : Bool) (s : List Char),
    re.search b s = true ↔
      ∃ pre rest, s = pre ++ rest ∧
        re.matchFrom (b && pre.isEmpty) rest (fun _ _ => true) = true
  | b, [] => by
    simp only [regexp.Regexp.search]
    constructor
    · intro h
      exact ⟨[], [], rfl, by simpa using h⟩
    · rintro ⟨pre, rest, hs, h⟩
      have hp : pre = [] := (List.append_eq_nil.mp hs.symm).1
      have hr : rest = [] := (List.append_eq_nil.mp hs.symm).2
      subst hp; subst hr
      simpa using h
  | b, d :: ds => by
    rw [regexp.Regexp.search, Bool.or_eq_true, search_iff re false ds]
    constructor
    · rintro (h | ⟨pre, rest, hs, h⟩)
      · exact ⟨[], d :: ds, rfl, by simpa using h⟩
      · exact ⟨d :: pre, rest, by simp [hs], by simpa using h⟩
    · rintro ⟨pre, rest, hs, h⟩
      cases pre with
      | nil =>
        simp only [List.nil_append] at hs
        subst hs
        exact Or.inl (by simpa using h)
      | cons p ps =>
        simp only [List.cons_append, List.cons.injEq] at hs
        obtain ⟨-, rfl⟩ := hs
        exact Or.inr ⟨ps, rest, rfl, by simpa using h⟩

theorem Error_eq_ErrorSatisfies (lib : Stdlib) (a : Assert) (err : Option GoError)
    (regex : String) : a.Error lib err regex = a.ErrorSatisfies err (errMatches lib regex) := by
  simp [Assert.Error, Assert.ErrorSatisfies, T.Helper]

theorem errMatches_returned (lib : Stdlib) (regex : String) (e : GoError) (text : String)
    (h : e.Error = Call.returned text) :
    errMatches lib regex e
      = (match lib.MatchString regex text with
         | Except.error matchErr => Call.returned (matchErr, false)
         | Except.ok matched =>
           Call.returned (lib.sprintfExpectedToMatch text regex, matched)) := by
  simp only [errMatches, h]

/-- C9: `Error` on the nil error fails for every pattern; on a non-nil error whose `Error()`
returns a text it succeeds (flag false, nothing logged) exactly when `regexp.MatchString`
reports a match of the pattern in that text, and fails otherwise. On the reference engine:
`Error(nil, ".*")` fails, `Error(errors.New("boom"), "bo+m")` succeeds,
`Error(errors.New("boom"), "^zzz$")` fails, and a match in the middle of the text
(`"bo+m"` in `"kaboom!"`) succeeds. -/
theorem Error_spec (lib : Stdlib) (a : Assert) (pattern : String) :
    a.Error lib Option.none pattern
      = Outcome.returned
          { failed := true, t := { a.t with failures := a.t.failures ++ [nilErrorFailure] } } ∧
    (∀ (e : GoError) (text : String), e.Error = Call.returned text →
      (a.Error lib (some e) pattern = Outcome.returned { a with failed := false }
        ↔ lib.MatchString pattern text = Except.ok true)) ∧
    (∀ (e : GoError) (text : String), e.Error = Call.returned text →
      ((∃ a', a.Error lib (some e) pattern = Outcome.returned a' ∧ a'.failed = true)
        ↔ lib.MatchString pattern text ≠ Except.ok true)) ∧
    (New freshT).Error goStdlib Option.none ".*"
      = Outcome.returned { failed := true, t := { freshT with failures := [nilErrorFailure] } } ∧
    (New freshT).Error goStdlib (some (errors.New "boom")) "bo+m" = Outcome.returned (New freshT) ∧
    (∃ a', (New freshT).Error goStdlib (some (errors.New "boom")) "^zzz$" = Outcome.returned a' ∧
      a'.failed = true) ∧
    (New freshT).Error goStdlib (some (errors.New "kaboom!")) "bo+m"
      = Outcome.returned (New freshT) := by
  refine ⟨?_, ?_, ?_, ?_, ?_, ?_, ?_⟩
  · rw [Error_eq_ErrorSatisfies, ErrorSatisfies_nil]
  · intro e text he
    rw [Error_eq_ErrorSatisfies]
    rcases h : lib.MatchString pattern text with msg | matched
    · rw [ErrorSatisfies_returned a _ e msg false (by rw [errMatches_returned lib pattern e text he, h])]
      simp
    · rw [ErrorSatisfies_returned a _ e _ matched
        (by rw [errMatches_returned lib pattern e text he, h])]
      cases matched <;> simp
  · intro e text he
    rw [Error_eq_ErrorSatisfies]
    rcases h : lib.MatchString pattern text with msg | matched
    · rw [ErrorSatisfies_returned a _ e msg false (by rw [errMatches_returned lib pattern e text he, h])]
      simp
    · rw [ErrorSatisfies_returned a _ e _ matched
        (by rw [errMatches_returned lib pattern e text he, h])]
      cases matched <;> simp
  · rfl
  · rfl
  · exact ⟨_, rfl, rfl⟩
  · rfl

theorem Error_spec_witness :
    (errors.New "boom").Error = Call.returned "boom" ∧
    goStdlib.MatchString "bo+m" "boom" = Except.ok true ∧
    (New freshT).Error goStdlib (some (errors.New "boom")) "bo+m"
      = Outcome.returned { (New freshT) with failed := false } ∧
    goStdlib.MatchString "^zzz$" "boom" ≠ Except.ok true ∧
    (∃ a', (New freshT).Error goStdlib (some (errors.New "boom")) "^zzz$" = Outcome.returned a' ∧
      a'.failed = true) :=
  ⟨rfl, rfl,
   ((Error_spec goStdlib (New freshT) "bo+m").2.1 (errors.New "boom") "boom" rfl).mpr rfl,
   (by intro h; cases h),
   ((Error_spec goStdlib (New freshT) "^zzz$").2.2.1 (errors.New "boom") "boom" rfl).mpr
     (by intro h; cases h)⟩

/-! ## All checks -/

theorem Check_run_reset (lib : Stdlib) (a : Assert) (f : Bool) (c : Check) :
    c.run lib { a with failed := f } = c.run lib a := by
  cases c <;>
    simp [Check.run, Assert.Equal, Assert.NotEmpty, Assert.Error, Assert.ErrorSatisfies,
      Assert.True, Assert.False, Assert.OK, T.Helper]

/-- C11: every check gives the same result, and so leaves the same failed flag, whatever
the flag was before the call: the flag is reset per call. After
`ctx.Equal(1,1).True("x", true)` and after `ctx.Equal(1,2).True("x", true)` the flag is
false; after `ctx.Equal(1,1).True("x", false)` it is true. -/
theorem Check_flag_reset_per_call (lib : Stdlib) (a : Assert) (c : Check) :
    (∀ f : Bool, (c.run lib { a with failed := f }).state.failed = (c.run lib a).state.failed) ∧
    (∀ f : Bool, c.run lib { a with failed := f } = c.run lib a) ∧
    ((a.Equal (Value.int 1) (Value.int 1)).True "x" true).failed = false ∧
    ((a.Equal (Value.int 1) (Value.int 2)).True "x" true).failed = false ∧
    (a.Equal (Value.int 1) (Value.int 2)).failed = true ∧
    ((a.Equal (Value.int 1) (Value.int 1)).True "x" false).failed = true := by
  refine ⟨fun f => ?_, fun f => Check_run_reset lib a f c, ?_, ?_, ?_, ?_⟩
  · rw [Check_run_reset]
  · simp [Assert.True]
  · simp [Assert.True]
  · simp [Assert.Equal, Assert.reportEqual, reflect.DeepEqual]
  · simp [Assert.True]

/-! ## Which checks return -/

theorem NotEmpty_cases (a : Assert) (label : String) (value : Value) :
    ((∃ b, value.asEmptyReporter = some (Call.returned b)) ∨
      (value.asEmptyReporter = Option.none ∧ ∃ b, value.asZeroReporter = some (Call.returned b)) ∨
      (value.asEmptyReporter = Option.none ∧ value.asZeroReporter = Option.none ∧
        ∃ s, value.asString = some s)) ∧
      (∃ a', a.NotEmpty label value = Outcome.returned a') ∨
    ((∃ v, value.asEmptyReporter = some (Call.panicked v) ∧
        a.NotEmpty label value = Outcome.callPanicked v { a with failed := false }) ∨
      (∃ v, value.asEmptyReporter = Option.none ∧ value.asZeroReporter = some (Call.panicked v) ∧
        a.NotEmpty label value = Outcome.callPanicked v { a with failed := false }) ∨
      (value.asEmptyReporter = Option.none ∧ value.asZeroReporter = Option.none ∧
        value.asString = Option.none ∧
        a.NotEmpty label value
          = Outcome.panicked (unhandledType value) { a with failed := false })) := by
  rcases hE : value.asEmptyReporter with _ | (b | v)
  · rcases hZ : value.asZeroReporter with _ | (b | v)
    · rcases hS : value.asString with _ | s
      · right; right; right
        simp [Assert.NotEmpty, hE, hZ, hS, unhandledType, T.Helper]
      · left
        refine ⟨Or.inr (Or.inr ⟨rfl, rfl, s, rfl⟩), ?_⟩
        by_cases h : s = "" <;> simp [Assert.NotEmpty, hE, hZ, hS, h]
    · left
      refine ⟨Or.inr (Or.inl ⟨rfl, b, rfl⟩), ?_⟩
      cases b <;> simp [Assert.NotEmpty, hE, hZ]
    · right; right; left
      exact ⟨v, rfl, rfl, by simp [Assert.NotEmpty, hE, hZ, T.Helper]⟩
  · left
    refine ⟨Or.inl ⟨b, rfl⟩, ?_⟩
    cases b <;> simp [Assert.NotEmpty, hE]
  · right; left
    exact ⟨v, rfl, by simp [Assert.NotEmpty, hE, T.Helper]⟩

theorem errMatches_panicked (lib : Stdlib) (regex : String) (e : GoError) (v : String)
    (h : e.Error = Call.panicked v) : errMatches lib regex e = Call.panicked v := by
  simp only [errMatches, h]

/-- C12 as stated fails: `NotEmpty(label, 42)` does not return to its caller, it panics. -/
theorem NotEmpty_42_does_not_return :
    ¬ ∃ a', Check.run goStdlib (New freshT) (Check.NotEmpty "answer" (Value.int 42))
        = Outcome.returned a' := by
  rintro ⟨a', h⟩
  simp [Check.run, Assert.NotEmpty, Value.asEmptyReporter, Value.asZeroReporter,
    Value.methods, Methods.none, Value.asString] at h

/-- C12 amended: no check ever ends in `t.FailNow()`, only `Fatal` does (when the flag is
set). `Equal`, `True`, `False` and `OK` return for every input. `ErrorSatisfies` returns
exactly when the error is nil or the predicate returns on it, and panics when the predicate
panics (a nil predicate does). `Error` returns exactly when the error is nil or its
`Error()` method returns, and panics when that method panics. `NotEmpty` returns exactly
when the method it dispatches to (`IsEmpty`, else `IsZero`) returns or the value is a
string; it panics when that method panics, and panics with the usage error on a value that
is none of the three. -/
theorem Check_run_never_aborts (lib : Stdlib) (a : Assert) :
    (∀ c a', Check.run lib a c ≠ Outcome.aborted a') ∧
    (∀ c, (∀ label value, c ≠ Check.NotEmpty label value) →
      (∀ err pred, c ≠ Check.ErrorSatisfies err pred) →
      (∀ err regex, c ≠ Check.Error err regex) →
      ∃ a', Check.run lib a c = Outcome.returned a') ∧
    (∀ err pred,
      ((∃ a', Check.run lib a (Check.ErrorSatisfies err pred) = Outcome.returned a') ↔
        (err = Option.none ∨ ∃ e r, err = some e ∧ pred e = Call.returned r)) ∧
      (∀ e v, err = some e → pred e = Call.panicked v →
        Check.run lib a (Check.ErrorSatisfies err pred)
          = Outcome.callPanicked v { a with failed := false })) ∧
    (∀ err regex,
      ((∃ a', Check.run lib a (Check.Error err regex) = Outcome.returned a') ↔
        (err = Option.none ∨ ∃ e text, err = some e ∧ e.Error = Call.returned text)) ∧
      (∀ e v, err = some e → e.Error = Call.panicked v →
        Check.run lib a (Check.Error err regex)
          = Outcome.callPanicked v { a with failed := false })) ∧
    (∀ label value,
      ((∃ a', Check.run lib a (Check.NotEmpty label value) = Outcome.returned a') ↔
        ((∃ b, value.asEmptyReporter = some (Call.returned b)) ∨
          (value.asEmptyReporter = Option.none ∧
            ∃ b, value.asZeroReporter = some (Call.returned b)) ∨
          (value.asEmptyReporter = Option.none ∧ value.asZeroReporter = Option.none ∧
            ∃ s, value.asString = some s))) ∧
      (∀ v, value.asEmptyReporter = some (Call.panicked v) →
        Check.run lib a (Check.NotEmpty label value)
          = Outcome.callPanicked v { a with failed := false }) ∧
      (∀ v, value.asEmptyReporter = Option.none →
        value.asZeroReporter = some (Call.panicked v) →
        Check.run lib a (Check.NotEmpty label value)
          = Outcome.callPanicked v { a with failed := false }) ∧
      (value.asEmptyReporter = Option.none → value.asZeroReporter = Option.none →
        value.asString = Option.none →
        Check.run lib a (Check.NotEmpty label value)
          = Outcome.panicked (unhandledType value) { a with failed := false })) ∧
    (∃ a', ({ a with failed := true } : Assert).Fatal = Outcome.aborted a') := by
  have hES : ∀ (err : Option GoError) (pred : ErrorPredicate),
      ((∃ a', a.ErrorSatisfies err pred = Outcome.returned a') ↔
        (err = Option.none ∨ ∃ e r, err = some e ∧ pred e = Call.returned r)) ∧
      (∀ e v, err = some e → pred e = Call.panicked v →
        a.ErrorSatisfies err pred = Outcome.callPanicked v { a with failed := false }) := by
    intro err pred
    cases err with
    | none =>
      refine ⟨⟨fun _ => Or.inl rfl, fun _ => ⟨_, ErrorSatisfies_nil a pred⟩⟩, ?_⟩
      intro e v he
      cases he
    | some e =>
      rcases hp : pred e with ⟨msg, ok⟩ | v
      · refine ⟨⟨fun _ => Or.inr ⟨e, (msg, ok), rfl, hp⟩,
          fun _ => ⟨_, ErrorSatisfies_returned a pred e msg ok hp⟩⟩, ?_⟩
        intro e2 v2 he hv
        cases he
        rw [hp] at hv
        cases hv
      · have hres := ErrorSatisfies_panicked a pred e v hp
        refine ⟨⟨?_, ?_⟩, ?_⟩
        · rintro ⟨a', h⟩
          rw [hres] at h
          cases h
        · rintro (h | ⟨e2, r, he, hr⟩)
          · cases h
          · cases he
            rw [hp] at hr
            cases hr
        · intro e2 v2 he hv
          cases he
          rw [hp] at hv
          cases hv
          exact hres
  refine ⟨?_, ?_, ?_, ?_, ?_, ?_⟩
  · intro c a' h
    cases c with
    | NotEmpty label value =>
      simp only [Check.run] at h
      rcases NotEmpty_cases a label value with ⟨-, a1, hr⟩ | ⟨v, -, hp⟩ | ⟨v, -, -, hp⟩ |
        ⟨-, -, -, hp⟩
      · rw [hr] at h; cases h
      · rw [hp] at h; cases h
      · rw [hp] at h; cases h
      · rw [hp] at h; cases h
    | ErrorSatisfies err pred =>
      simp only [Check.run] at h
      cases err with
      | none => rw [ErrorSatisfies_nil] at h; cases h
      | some e =>
        rcases hp : pred e with ⟨msg, ok⟩ | v
        · rw [ErrorSatisfies_returned a pred e msg ok hp] at h; cases h
        · rw [ErrorSatisfies_panicked a pred e v hp] at h; cases h
    | Error err regex =>
      simp only [Check.run, Error_eq_ErrorSatisfies] at h
      cases err with
      | none => rw [ErrorSatisfies_nil] at h; cases h
      | some e =>
        rcases hp : errMatches lib regex e with ⟨msg, ok⟩ | v
        · rw [ErrorSatisfies_returned a _ e msg ok hp] at h; cases h
        · rw [ErrorSatisfies_panicked a _ e v hp] at h; cases h
    | _ => simp [Check.run] at h
  · intro c h1 h2 h3
    cases c with
    | NotEmpty label value => exact absurd rfl (h1 label value)
    | ErrorSatisfies err pred => exact absurd rfl (h2 err pred)
    | Error err regex => exact absurd rfl (h3 err regex)
    | _ => exact ⟨_, rfl⟩
  · intro err pred
    exact hES err pred
  · intro err regex
    simp only [Check.run, Error_eq_ErrorSatisfies]
    obtain ⟨h1, h2⟩ := hES err (errMatches lib regex)
    refine ⟨h1.trans ?_, ?_⟩
    · constructor
      · rintro (h | ⟨e, r, he, hr⟩)
        · exact Or.inl h
        · rcases hE : e.Error with text | v
          · exact Or.inr ⟨e, text, he, hE⟩
          · rw [errMatches_panicked lib regex e v hE] at hr
            cases hr
      · rintro (h | ⟨e, text, he, ht⟩)
        · exact Or.inl h
        · refine Or.inr ⟨e, ?_, he, ?_⟩
          · exact (match lib.MatchString regex text with
              | Except.error matchErr => (matchErr, false)
              | Except.ok matched => (lib.sprintfExpectedToMatch text regex, matched))
          · rw [errMatches_returned lib regex e text ht]
            cases lib.MatchString regex text <;> rfl
    · intro e v he hv
      exact h2 e v he (errMatches_panicked lib regex e v hv)
  · intro label value
    simp only [Check.run]
    refine ⟨⟨?_, ?_⟩, ?_, ?_, ?_⟩
    · rintro ⟨a', h⟩
      rcases NotEmpty_cases a label value with ⟨hc, -⟩ | ⟨v, -, hp⟩ | ⟨v, -, -, hp⟩ |
        ⟨-, -, -, hp⟩
      · exact hc
      · rw [hp] at h; cases h
      · rw [hp] at h; cases h
      · rw [hp] at h; cases h
    · intro hc
      rcases NotEmpty_cases a label value with ⟨-, hr⟩ | ⟨v, hE, -⟩ | ⟨v, hE, hZ, -⟩ |
        ⟨hE, hZ, hS, -⟩
      · exact hr
      · rcases hc with ⟨b, hb⟩ | ⟨hn, -⟩ | ⟨hn, -⟩
        · rw [hE] at hb; cases hb
        · rw [hE] at hn; cases hn
        · rw [hE] at hn; cases hn
      · rcases hc with ⟨b, hb⟩ | ⟨-, b, hb⟩ | ⟨-, hn, -⟩
        · rw [hE] at hb; cases hb
        · rw [hZ] at hb; cases hb
        · rw [hZ] at hn; cases hn
      · rcases hc with ⟨b, hb⟩ | ⟨-, b, hb⟩ | ⟨-, -, s, hs⟩
        · rw [hE] at hb; cases hb
        · rw [hZ] at hb; cases hb
        · rw [hS] at hs; cases hs
    · intro v hE
      simp [Assert.NotEmpty, hE, T.Helper]
    · intro v hE hZ
      simp [Assert.NotEmpty, hE, hZ, T.Helper]
    · intro hE hZ hS
      simp [Assert.NotEmpty, hE, hZ, hS, unhandledType, T.Helper]
  · exact ⟨{ failed := false, t := a.t }, by simp [Assert.Fatal, T.Helper]⟩

theorem Check_run_never_aborts_witness :
    (∃ a', Check.run goStdlib (New freshT) (Check.Equal (Value.int 1) (Value.int 2))
        = Outcome.returned a') ∧
    Check.run goStdlib (New freshT)
        (Check.ErrorSatisfies (some (errors.New "boom")) nilPredicate)
      = Outcome.callPanicked "runtime error: invalid memory address or nil pointer dereference"
          (New freshT) ∧
    Check.run goStdlib (New freshT)
        (Check.Error (some { Error := Call.panicked "broken Error method" }) ".*")
      = Outcome.callPanicked "broken Error method" (New freshT) ∧
    Check.run goStdlib (New freshT)
        (Check.NotEmpty "box"
          (Value.nilPointer "Box"
            { IsEmpty := some (Call.panicked "nil pointer dereference"), IsZero := Option.none }))
      = Outcome.callPanicked "nil pointer dereference" (New freshT) ∧
    Check.run goStdlib (New freshT) (Check.NotEmpty "answer" (Value.int 42))
      = Outcome.panicked (unhandledType (Value.int 42)) (New freshT) :=
  ⟨(Check_run_never_aborts goStdlib (New freshT)).2.1 (Check.Equal (Value.int 1) (Value.int 2))
      (by intro label value h; cases h) (by intro err pred h; cases h)
      (by intro err regex h; cases h),
   ((Check_run_never_aborts goStdlib (New freshT)).2.2.1
      (some (errors.New "boom")) nilPredicate).2 (errors.New "boom") _ rfl rfl,
   ((Check_run_never_aborts goStdlib (New freshT)).2.2.2.1
      (some { Error := Call.panicked "broken Error method" }) ".*").2
      { Error := Call.panicked "broken Error method" } _ rfl rfl,
   ((Check_run_never_aborts goStdlib (New freshT)).2.2.2.2.1 "box"
      (Value.nilPointer "Box"
        { IsEmpty := some (Call.panicked "nil pointer dereference"),
          IsZero := Option.none })).2.1 _ rfl,
   ((Check_run_never_aborts goStdlib (New freshT)).2.2.2.2.1 "answer"
      (Value.int 42)).2.2.2 rfl rfl rfl⟩

/-! ## OK, True, False -/

/-- C13: `OK` fails exactly when the error is non-nil, and then logs one record that
carries the text of the error; `OK(nil)` leaves the flag false and logs nothing. -/
theorem OK_spec (a : Assert) :
    a.OK Option.none = { a with failed := false } ∧
    (∀ e : GoError,
      a.OK (some e)
        = { failed := true,
            t := { a.t with failures := a.t.failures ++ [notNilFailure e] } }) ∧
    (∀ err : Option GoError, (a.OK err).failed = true ↔ err ≠ Option.none) ∧
    (∀ e : GoError, Arg.err (some e) ∈
      (match notNilFailure e with
       | Failure.Errorf msg => msg.args
       | Failure.Error _ => [])) ∧
    ((New freshT).OK (some (errors.New "x"))).failed = true := by
  refine ⟨?_, ?_, ?_, ?_, ?_⟩
  · simp [Assert.OK, T.Helper]
  · intro e
    simp [Assert.OK, T.Helper, T.Errorf, notNilFailure]
  · intro err
    cases err <;> simp [Assert.OK]
  · intro e
    simp [notNilFailure]
  · simp [Assert.OK]

/-- C14: `True(label, b)` fails exactly when `b` is false and `False(label, b)` exactly when
`b` is true, so exactly one of the two fails. -/
theorem True_False_complement (a : Assert) (label : String) (b : Bool) :
    (a.True label b).failed = !b ∧
    (a.False label b).failed = b ∧
    (a.False label b).failed = !(a.True label b).failed ∧
    (((a.True label b).failed = true ∧ (a.False label b).failed = false) ∨
      ((a.True label b).failed = false ∧ (a.False label b).failed = true)) := by
  cases b <;> simp [Assert.True, Assert.False]


/-! ## Frame and agreement of the flag with the log -/

theorem Effect_pass (a : Assert) : Effect a { a with failed := false } [] := by
  simp [Effect]

theorem Effect_fail (a : Assert) (r : Failure) :
    Effect a { failed := true, t := { a.t with failures := a.t.failures ++ [r] } } [r] := by
  simp [Effect]

theorem Equal_effect (a : Assert) (got want : Value) :
    ∃ new, Effect a (a.Equal got want) new := by
  by_cases hw : ∀ s, want ≠ Value.string s
  · rw [Equal_default_case a got want hw]
    by_cases h : reflect.DeepEqual got want = true
    · exact ⟨[], by simpa [h] using Effect_pass a⟩
    · exact ⟨[valueMismatch got want], by simpa [h] using Effect_fail a _⟩
  · push_neg at hw
    obtain ⟨w, rfl⟩ := hw
    rcases hg : got.asString with _ | g
    · refine ⟨[typeMismatch got (Value.string w)], ?_⟩
      have : a.Equal got (Value.string w)
          = { failed := true,
              t := { a.t with failures := a.t.failures ++ [typeMismatch got (Value.string w)] } } := by
        simp [Assert.Equal, hg, T.Errorf, T.Helper, typeMismatch]
      rw [this]
      exact Effect_fail a _
    · by_cases hgw : g = w
      · refine ⟨[], ?_⟩
        have : a.Equal got (Value.string w) = { a with failed := false } := by
          simp [Assert.Equal, Assert.reportEqual, hg, hgw, T.Helper]
        rw [this]
        exact Effect_pass a
      · refine ⟨[valueMismatch got (Value.string w)], ?_⟩
        have : a.Equal got (Value.string w)
            = { failed := true,
                t := { a.t with
                  failures := a.t.failures ++ [valueMismatch got (Value.string w)] } } := by
          simp [Assert.Equal, Assert.reportEqual, hg, hgw, T.Errorf, T.Helper, valueMismatch]
        rw [this]
        exact Effect_fail a _

theorem ErrorSatisfies_effect (a a' : Assert) (err : Option GoError) (p : ErrorPredicate)
    (h : a.ErrorSatisfies err p = Outcome.returned a') : ∃ new, Effect a a' new := by
  cases err with
  | none =>
    rw [ErrorSatisfies_nil, Outcome.returned.injEq] at h
    subst h
    exact ⟨_, Effect_fail a _⟩
  | some e =>
    rcases hp : p e with ⟨msg, ok⟩ | v
    · rw [ErrorSatisfies_returned a p e msg ok hp, Outcome.returned.injEq] at h
      subst h
      cases ok
      · exact ⟨_, by simpa using Effect_fail a (Failure.Error msg)⟩
      · exact ⟨_, by simpa using Effect_pass a⟩
    · rw [ErrorSatisfies_panicked a p e v hp] at h
      cases h

theorem Check_run_effect (lib : Stdlib) (a a' : Assert) (c : Check)
    (h : c.run lib a = Outcome.returned a') : ∃ new, Effect a a' new := by
  cases c with
  | Equal got want =>
    simp only [Check.run, Outcome.returned.injEq] at h
    subst h
    exact Equal_effect a got want
  | NotEmpty label value =>
    simp only [Check.run] at h
    rcases hE : value.asEmptyReporter with _ | (b | v)
    · rcases hZ : value.asZeroReporter with _ | (b | v)
      · rcases hS : value.asString with _ | s
        · simp [Assert.NotEmpty, hE, hZ, hS] at h
        · by_cases hs : s = ""
          · simp [Assert.NotEmpty, hE, hZ, hS, hs, T.Helper, T.Errorf] at h
            subst h
            exact ⟨_, Effect_fail a _⟩
          · have hb : (s == "") = false := by simp [hs]
            simp [Assert.NotEmpty, hE, hZ, hS, hb, T.Helper] at h
            subst h
            exact ⟨_, Effect_pass a⟩
      · cases b
        · simp [Assert.NotEmpty, hE, hZ, T.Helper] at h
          subst h
          exact ⟨_, Effect_pass a⟩
        · simp [Assert.NotEmpty, hE, hZ, T.Helper, T.Errorf] at h
          subst h
          exact ⟨_, Effect_fail a _⟩
      · simp [Assert.NotEmpty, hE, hZ] at h
    · cases b
      · simp [Assert.NotEmpty, hE, T.Helper] at h
        subst h
        exact ⟨_, Effect_pass a⟩
      · simp [Assert.NotEmpty, hE, T.Helper, T.Errorf] at h
        subst h
        exact ⟨_, Effect_fail a _⟩
    · simp [Assert.NotEmpty, hE] at h
  | Error err regex =>
    simp only [Check.run, Error_eq_ErrorSatisfies] at h
    exact ErrorSatisfies_effect a a' err _ h
  | ErrorSatisfies err pred =>
    simp only [Check.run] at h
    exact ErrorSatisfies_effect a a' err pred h
  | True label pred =>
    simp only [Check.run, Outcome.returned.injEq] at h
    subst h
    cases pred
    · exact ⟨_, by simpa [Assert.True, T.Helper, T.Errorf] using Effect_fail a _⟩
    · exact ⟨_, by simpa [Assert.True, T.Helper] using Effect_pass a⟩
  | False label pred =>
    simp only [Check.run, Outcome.returned.injEq] at h
    subst h
    cases pred
    · exact ⟨_, by simpa [Assert.False, T.Helper] using Effect_pass a⟩
    · exact ⟨_, by simpa [Assert.False, T.Helper, T.Errorf] using Effect_fail a _⟩
  | OK err =>
    simp only [Check.run, Outcome.returned.injEq] at h
    subst h
    cases err with
    | none => exact ⟨_, by simpa [Assert.OK, T.Helper] using Effect_pass a⟩
    | some e => exact ⟨_, by simpa [Assert.OK, T.Helper, T.Errorf] using Effect_fail a _⟩

/-- C15: a check that returns hands back the context it was called on: the test handle is
the same one (same name, earlier records kept in place) and only the failed flag and the
records appended to the log can differ from before the call. -/
theorem Check_run_frame (lib : Stdlib) (a a' : Assert) (c : Check)
    (h : c.run lib a = Outcome.returned a') :
    a'.t.name = a.t.name ∧
    ∃ new, a' = { failed := a'.failed, t := { a.t with failures := a.t.failures ++ new } } := by
  obtain ⟨new, hEff, -⟩ := Check_run_effect lib a a' c h
  refine ⟨?_, new, hEff⟩
  rw [hEff]

theorem Check_run_frame_witness :
    ((New freshT).Equal (Value.int 1) (Value.int 2)).t.name = freshT.name ∧
    ∃ new, (New freshT).Equal (Value.int 1) (Value.int 2)
      = { failed := ((New freshT).Equal (Value.int 1) (Value.int 2)).failed,
          t := { (New freshT).t with failures := (New freshT).t.failures ++ new } } :=
  Check_run_frame goStdlib (New freshT) ((New freshT).Equal (Value.int 1) (Value.int 2))
    (Check.Equal (Value.int 1) (Value.int 2)) rfl

/-- C16: a check that returns appends exactly one record to the log when it leaves the
failed flag set and none when it leaves the flag clear; this covers the type-mismatch path
of `Equal` and the delegation of `Error` to `ErrorSatisfies`, which log once. -/
theorem Check_run_flag_matches_log (lib : Stdlib) (a a' : Assert) (c : Check)
    (h : c.run lib a = Outcome.returned a') :
    (∃ new, a'.t.failures = a.t.failures ++ new ∧ new.length = (if a'.failed then 1 else 0)) ∧
    (a'.failed = true → a'.t.failures.length = a.t.failures.length + 1) ∧
    (a'.failed = false → a'.t.failures = a.t.failures) := by
  obtain ⟨new, hEff, hlen⟩ := Check_run_effect lib a a' c h
  have hf : a'.t.failures = a.t.failures ++ new := by rw [hEff]
  refine ⟨⟨new, hf, hlen⟩, ?_, ?_⟩
  · intro ht
    rw [hf, List.length_append, hlen, ht]
    rfl
  · intro hfalse
    rw [hfalse] at hlen
    have hnil : new = [] := List.length_eq_zero.mp (by simpa using hlen)
    rw [hf, hnil, List.append_nil]

theorem Check_run_flag_matches_log_witness :
    Check.run goStdlib (New freshT) (Check.Equal (Value.int 5) (Value.string "x"))
      = Outcome.returned ((New freshT).Equal (Value.int 5) (Value.string "x")) ∧
    ((New freshT).Equal (Value.int 5) (Value.string "x")).failed = true ∧
    ((New freshT).Equal (Value.int 5) (Value.string "x")).t.failures.length
      = (New freshT).t.failures.length + 1 :=
  ⟨rfl, rfl,
   (Check_run_flag_matches_log goStdlib (New freshT)
      ((New freshT).Equal (Value.int 5) (Value.string "x"))
      (Check.Equal (Value.int 5) (Value.string "x")) rfl).2.1 rfl⟩


/-! ## Chains ended by Fatal -/

theorem Fatal_aborted_iff (a : Assert) :
    (∃ s, a.Fatal = Outcome.aborted s) ↔ a.failed = true := by
  cases h : a.failed <;> simp [Assert.Fatal, h]

theorem runChain_snoc (lib : Stdlib) (c : Check) : ∀ (init : List Check) (a : Assert),
    runChain lib a (init ++ [c])
      = (match runChain lib a init with
         | Outcome.returned b => c.run lib b
         | o => o)
  | [], a => by
    simp only [List.nil_append, runChain]
    cases c.run lib a <;> rfl
  | d :: ds, a => by
    simp only [List.cons_append, runChain]
    cases hd : d.run lib a with
    | returned a1 => simpa using runChain_snoc lib c ds a1
    | panicked err a1 => rfl
    | aborted a1 => rfl
    | callPanicked v a1 => rfl

theorem runChain_snoc_returned (lib : Stdlib) (c : Check) (init : List Check) (a a' : Assert) :
    runChain lib a (init ++ [c]) = Outcome.returned a' ↔
      ∃ b, runChain lib a init = Outcome.returned b ∧ c.run lib b = Outcome.returned a' := by
  rw [runChain_snoc]
  cases h : runChain lib a init with
  | returned b => simp
  | panicked err b => simp
  | aborted b => simp
  | callPanicked v b => simp

theorem ErrorSatisfies_failed_indep (a b : Assert) (err : Option GoError)
    (pred : ErrorPredicate) :
    (a.ErrorSatisfies err pred).state.failed = (b.ErrorSatisfies err pred).state.failed := by
  cases err with
  | none => simp [ErrorSatisfies_nil, Outcome.state]
  | some e =>
    rcases hp : pred e with ⟨msg, ok⟩ | v
    · simp [ErrorSatisfies_returned _ pred e msg ok hp, Outcome.state]
    · simp [ErrorSatisfies_panicked _ pred e v hp, Outcome.state]

theorem Check_failed_indep (lib : Stdlib) (a b : Assert) (c : Check) :
    (c.run lib a).state.failed = (c.run lib b).state.failed := by
  cases c with
  | Equal got want =>
    simp only [Check.run, Outcome.state]
    by_cases hw : ∀ s, want ≠ Value.string s
    · rw [Equal_default_case a got want hw, Equal_default_case b got want hw]
      by_cases h : reflect.DeepEqual got want = true <;> simp [h]
    · push_neg at hw
      obtain ⟨w, rfl⟩ := hw
      rcases hg : got.asString with _ | g
      · simp [Assert.Equal, hg]
      · by_cases hgw : g = w <;> simp [Assert.Equal, Assert.reportEqual, hg, hgw]
  | NotEmpty label value =>
    simp only [Check.run]
    rcases hE : value.asEmptyReporter with _ | (e | v)
    · rcases hZ : value.asZeroReporter with _ | (z | v)
      · rcases hS : value.asString with _ | s
        · simp [Assert.NotEmpty, hE, hZ, hS, Outcome.state]
        · by_cases hs : s = ""
          · simp [Assert.NotEmpty, hE, hZ, hS, hs, Outcome.state]
          · have hb : (s == "") = false := by simp [hs]
            simp [Assert.NotEmpty, hE, hZ, hS, hb, Outcome.state]
      · cases z <;> simp [Assert.NotEmpty, hE, hZ, Outcome.state]
      · simp [Assert.NotEmpty, hE, hZ, Outcome.state]
    · cases e <;> simp [Assert.NotEmpty, hE, Outcome.state]
    · simp [Assert.NotEmpty, hE, Outcome.state]
  | Error err regex =>
    simp only [Check.run, Error_eq_ErrorSatisfies]
    exact ErrorSatisfies_failed_indep a b err _
  | ErrorSatisfies err pred =>
    simp only [Check.run]
    exact ErrorSatisfies_failed_indep a b err pred
  | True label pred => cases pred <;> simp [Check.run, Outcome.state, Assert.True]
  | False label pred => cases pred <;> simp [Check.run, Outcome.state, Assert.False]
  | OK err => cases err <;> simp [Check.run, Outcome.state, Assert.OK]

/-- C17: for a chain of checks on a context made by `New`, all of which return, followed by
`Fatal`: the test is aborted exactly when the chain is non-empty and its last check left
the flag set, which depends on that check alone and not on the checks before it; otherwise
`Fatal` returns and changes nothing. `Fatal` on a fresh context is a no-op. -/
theorem chainThenFatal_aborts_iff (lib : Stdlib) (t : T) (cs : List Check) (a' : Assert)
    (h : runChain lib (New t) cs = Outcome.returned a') :
    ((∃ s, chainThenFatal lib t cs = Outcome.aborted s) ↔
      ∃ init c b r, cs = init ++ [c] ∧ runChain lib (New t) init = Outcome.returned b ∧
        c.run lib b = Outcome.returned r ∧ r.failed = true) ∧
    ((∃ s, chainThenFatal lib t cs = Outcome.aborted s) ↔
      ∃ c, cs.getLast? = some c ∧ (c.run lib (New t)).state.failed = true) ∧
    (a'.failed = false → chainThenFatal lib t cs = Outcome.returned a') ∧
    chainThenFatal lib t [] = Outcome.returned (New t) := by
  have hF : chainThenFatal lib t cs = a'.Fatal := by simp [chainThenFatal, h]
  have hA : (∃ s, chainThenFatal lib t cs = Outcome.aborted s) ↔ a'.failed = true := by
    rw [hF]; exact Fatal_aborted_iff a'
  have hnoop : a'.failed = false → chainThenFatal lib t cs = Outcome.returned a' := by
    intro hf
    rw [hF]
    cases a' with
    | mk failed t' =>
      simp only at hf
      subst hf
      simp [Assert.Fatal, T.Helper]
  have hnil : chainThenFatal lib t [] = Outcome.returned (New t) := by
    simp [chainThenFatal, runChain, Assert.Fatal, New, T.Helper]
  rcases List.eq_nil_or_concat cs with hcs | ⟨init, c, hcs⟩
  · subst hcs
    have ha : a' = New t := by
      simp only [runChain, Outcome.returned.injEq] at h
      exact h.symm
    refine ⟨?_, ?_, hnoop, hnil⟩
    · rw [hA, ha]
      simp [New]
    · rw [hA, ha]
      simp [New]
  · rw [List.concat_eq_append] at hcs
    subst hcs
    obtain ⟨b, hb, hc⟩ := (runChain_snoc_returned lib c init (New t) a').mp h
    refine ⟨?_, ?_, hnoop, hnil⟩
    · rw [hA]
      constructor
      · intro hf
        exact ⟨init, c, b, a', rfl, hb, hc, hf⟩
      · rintro ⟨init2, c2, b2, r, hcs, hb2, hc2, hr⟩
        obtain ⟨hi, hl⟩ := List.append_inj' hcs rfl
        subst hi
        have hcc : c = c2 := by simpa using hl
        subst hcc
        rw [hb] at hb2
        cases hb2
        rw [hc] at hc2
        cases hc2
        exact hr
    · rw [hA]
      have hflag : (c.run lib (New t)).state.failed = a'.failed := by
        rw [Check_failed_indep lib (New t) b c, hc]
        rfl
      constructor
      · intro hf
        exact ⟨c, by simp, by rw [hflag]; exact hf⟩
      · rintro ⟨c2, hlast, hf⟩
        have hcc : c = c2 := by simpa using hlast
        subst hcc
        rw [hflag] at hf
        exact hf

theorem chainThenFatal_aborts_iff_witness :
    runChain goStdlib (New freshT) [Check.Equal (Value.int 1) (Value.int 2), Check.True "x" true]
      = Outcome.returned
          { failed := false,
            t := { freshT with failures := [valueMismatch (Value.int 1) (Value.int 2)] } } ∧
    chainThenFatal goStdlib freshT
        [Check.Equal (Value.int 1) (Value.int 2), Check.True "x" true]
      = Outcome.returned
          { failed := false,
            t := { freshT with failures := [valueMismatch (Value.int 1) (Value.int 2)] } } ∧
    (∃ s, chainThenFatal goStdlib freshT
        [Check.True "x" true, Check.Equal (Value.int 1) (Value.int 2)] = Outcome.aborted s) :=
  ⟨rfl,
   (chainThenFatal_aborts_iff goStdlib freshT
      [Check.Equal (Value.int 1) (Value.int 2), Check.True "x" true]
      { failed := false,
        t := { freshT with failures := [valueMismatch (Value.int 1) (Value.int 2)] } }
      rfl).2.2.1 rfl,
   (chainThenFatal_aborts_iff goStdlib freshT
      [Check.True "x" true, Check.Equal (Value.int 1) (Value.int 2)]
      { failed := true,
        t := { freshT with failures := [valueMismatch (Value.int 1) (Value.int 2)] } }
      rfl).2.1.mpr ⟨Check.Equal (Value.int 1) (Value.int 2), rfl, rfl⟩⟩

/-! ## The message of Error -/

/-- C18: on a non-nil error whose `Error()` returns a text, when the pattern does not
compile `Error` fails and the one record it logs is the text of the compile error; when the
pattern compiles and does not match, the one record is the text
`expected %q to match %q but didn't` rendered with the text of the error and the pattern.
On the reference engine the pattern `(` logs the parse error and the pattern `^zzz$`
against `boom` logs the expected-to-match text. -/
theorem Error_message (lib : Stdlib) (a : Assert) (e : GoError) (pattern : String) :
    (∀ text msg, e.Error = Call.returned text →
      lib.MatchString pattern text = Except.error msg →
      a.Error lib (some e) pattern
        = Outcome.returned
            { failed := true,
              t := { a.t with failures := a.t.failures ++ [Failure.Error msg] } }) ∧
    (∀ text, e.Error = Call.returned text →
      lib.MatchString pattern text = Except.ok false →
      a.Error lib (some e) pattern
        = Outcome.returned
            { failed := true,
              t := { a.t with failures := a.t.failures ++
                [Failure.Error ("expected " ++ lib.Quote text ++ " to match "
                  ++ lib.Quote pattern ++ " but didn't")] } }) ∧
    (New freshT).Error goStdlib (some (errors.New "boom")) "("
      = Outcome.returned
          { failed := true,
            t := { freshT with
              failures := [Failure.Error "error parsing regexp: missing closing ): `(`"] } } ∧
    (New freshT).Error goStdlib (some (errors.New "boom")) "^zzz$"
      = Outcome.returned
          { failed := true,
            t := { freshT with
              failures :=
                [Failure.Error "expected \"boom\" to match \"^zzz$\" but didn't"] } } := by
  refine ⟨?_, ?_, ?_, ?_⟩
  · intro text msg he h
    rw [Error_eq_ErrorSatisfies,
      ErrorSatisfies_returned a _ e msg false (by rw [errMatches_returned lib pattern e text he, h])]
    simp
  · intro text he h
    rw [Error_eq_ErrorSatisfies,
      ErrorSatisfies_returned a _ e (lib.sprintfExpectedToMatch text pattern) false
        (by rw [errMatches_returned lib pattern e text he, h])]
    simp [Stdlib.sprintfExpectedToMatch]
  · rfl
  · rfl

theorem Error_message_witness :
    (errors.New "boom").Error = Call.returned "boom" ∧
    goStdlib.MatchString "(" "boom"
      = Except.error "error parsing regexp: missing closing ): `(`" ∧
    (New freshT).Error goStdlib (some (errors.New "boom")) "("
      = Outcome.returned
          { failed := true,
            t := { (New freshT).t with
              failures := (New freshT).t.failures ++
                [Failure.Error "error parsing regexp: missing closing ): `(`"] } } ∧
    goStdlib.MatchString "^zzz$" "boom" = Except.ok false ∧
    (New freshT).Error goStdlib (some (errors.New "boom")) "^zzz$"
      = Outcome.returned
          { failed := true,
            t := { (New freshT).t with
              failures := (New freshT).t.failures ++
                [Failure.Error ("expected " ++ goStdlib.Quote "boom" ++ " to match "
                  ++ goStdlib.Quote "^zzz$" ++ " but didn't")] } } :=
  ⟨rfl, rfl,
   (Error_message goStdlib (New freshT) (errors.New "boom") "(").1 "boom"
      "error parsing regexp: missing closing ): `(`" rfl rfl,
   rfl,
   (Error_message goStdlib (New freshT) (errors.New "boom") "^zzz$").2.1 "boom" rfl rfl⟩

/-! ## The reference engine on examples -/

/-- The reference engine on alternation, groups, repetition, anchors and escapes, and its
parse errors. -/
theorem MatchString_examples :
    regexp.MatchString "a|b" "xbx" = Except.ok true ∧
    regexp.MatchString "a|b" "xcx" = Except.ok false ∧
    regexp.MatchString "^(ab|cd)*e$" "abcdabe" = Except.ok true ∧
    regexp.MatchString "^(ab|cd)*e$" "abce" = Except.ok false ∧
    regexp.MatchString "^a.c$" "a\nc" = Except.ok false ∧
    regexp.MatchString "colou?r" "my color" = Except.ok true ∧
    regexp.MatchString "1\\+1" "1+1=2" = Except.ok true ∧
    regexp.MatchString "1\\+1" "11" = Except.ok false ∧
    regexp.MatchString "" "anything" = Except.ok true ∧
    regexp.MatchString "a)" "a"
      = Except.error "error parsing regexp: unexpected ): `a)`" ∧
    regexp.MatchString "a**" "a"
      = Except.error "error parsing regexp: invalid nested repetition operator: `**`" ∧
    regexp.MatchString "*a" "a"
      = Except.error "error parsing regexp: missing argument to repetition operator: `*`" := by
  refine ⟨?_, ?_, ?_, ?_, ?_, ?_, ?_, ?_, ?_, ?_, ?_, ?_⟩ <;> rfl

/-- The quoting of the verb `%q` on quotes, backslashes and control characters. -/
theorem Quote_examples :
    strconv.Quote "boom" = "\"boom\"" ∧
    strconv.Quote "say \"hi\"" = "\"say \\\"hi\\\"\"" ∧
    strconv.Quote "a\\b" = "\"a\\\\b\"" ∧
    strconv.Quote "line\nbreak\ttab" = "\"line\\nbreak\\ttab\"" := by
  refine ⟨?_, ?_, ?_, ?_⟩ <;> rfl
end assert
